import Mathlib

/-!
Verification of the GI opnote annotation generator front-end
(realtime session variant of `public/main.js`, the `ImageDiagram`
component and the `AudioConverter`/WAV encoder).

The JavaScript source is shallowly embedded: every stateful routine
becomes a pure function on an explicit state record, promises become a
`settled` log pairing a request id with its settlement, the browser
console becomes a `log` list of strings, machine integers become `Nat`
with explicit `% 2 ^ w` where the code relies on wrapping, and float
samples become rationals.
-/

/-! ## Request correlator (`public/main.js`, realtime variant)

`realtimeRequests` is a JS `Map` from request id to
`{resolve, reject, timer}`; insertion order is preserved, `set`
overwrites in place.  We model it as an ordered list of entries and
record every promise settlement in a `settled` log.  A timer is live
exactly while its entry is in the map (every settlement path first
removes the entry and clears the timer), so the timeout event is
modelled as a guarded transition. -/

/-- A JSON frame on the realtime socket; only the fields the correlator
reads are modelled. -/
structure Payload where
  request_id : Option String
  type : String
  detail : Option String
deriving DecidableEq, Repr

/-- How a pending promise was settled. -/
inductive Settlement where
  | resolved (p : Payload)
  | rejected (msg : String)
deriving DecidableEq, Repr

/-- An entry of `realtimeRequests`: a request id together with the
timeout (ms) its timer was armed with. -/
structure PendingEntry where
  rid : String
  timeoutMs : Nat
deriving DecidableEq, Repr

/-- State touched by the correlator: socket connectivity, the pending
map (in insertion order), the log of promise settlements, and the
console log. -/
structure CorrState where
  connected : Bool
  pending : List PendingEntry
  settled : List (String × Settlement)
  log : List String
deriving DecidableEq, Repr

def REALTIME_TIMEOUT_MS : Nat := 20000

def pendingIds (st : CorrState) : List String :=
  st.pending.map (·.rid)

/-- `Map.set`: overwrite the entry in place when the key is present,
else append. -/
def upsertPending (l : List PendingEntry) (e : PendingEntry) : List PendingEntry :=
  if l.any (fun x => x.rid == e.rid) then
    l.map (fun x => if x.rid == e.rid then e else x)
  else l ++ [e]

/-- `payload.request_id || nextRequestId()`: a falsy (absent or empty)
caller-supplied id is replaced by the generated `freshId`. -/
def effectiveRequestId (p : Payload) (freshId : String) : String :=
  match p.request_id with
  | some r => if r ≠ "" then r else freshId
  | none => freshId

/-- `sendRealtimeRequest(payload, timeoutMs = REALTIME_TIMEOUT_MS)`:
when the socket is not open the promise rejects immediately; otherwise
a timer of `timeoutMs` is armed and the entry is stored in the map. -/
def sendRealtimeRequest (st : CorrState) (p : Payload) (freshId : String)
    (timeoutMs : Option Nat) : CorrState :=
  let requestId := effectiveRequestId p freshId
  if st.connected then
    { st with pending := upsertPending st.pending ⟨requestId, timeoutMs.getD REALTIME_TIMEOUT_MS⟩ }
  else
    { st with settled := st.settled ++ [(requestId, .rejected "Realtime socket not connected.")] }

/-- The settlement `handleRealtimeMessage` applies to a matching pending
entry: type `"error"` rejects with the server detail, anything else
resolves with the full payload. -/
def outcomeOf (p : Payload) : Settlement :=
  if p.type == "error" then .rejected ((p.detail).getD "Realtime error")
  else .resolved p

/-- `handleRealtimeMessage(payload)`: a truthy `request_id` matching a
pending entry removes that entry and settles its promise; otherwise
only frames of type `"error"` are logged and everything else is
dropped. -/
def handleRealtimeMessage (st : CorrState) (p : Payload) : CorrState :=
  match p.request_id with
  | some rid =>
    if rid ≠ "" ∧ (pendingIds st).contains rid then
      { st with pending := st.pending.filter (fun e => e.rid ≠ rid),
                settled := st.settled ++ [(rid, outcomeOf p)] }
    else if p.type == "error" then
      { st with log := st.log ++ ["Realtime error: " ++ p.detail.getD "Unknown realtime error"] }
    else st
  | none =>
    if p.type == "error" then
      { st with log := st.log ++ ["Realtime error: " ++ p.detail.getD "Unknown realtime error"] }
    else st

/-- The timer callback armed by `sendRealtimeRequest`: it can only fire
while the entry is still pending (all settlement paths clear the timer
when they delete the entry); it deletes the entry and rejects with the
timeout error. -/
def fireTimeout (st : CorrState) (rid : String) : CorrState :=
  if (pendingIds st).contains rid then
    { st with pending := st.pending.filter (fun e => e.rid ≠ rid),
              settled := st.settled ++ [(rid, .rejected "Realtime request timed out.")] }
  else st

/-- `closeRealtimeSocket()` (the `ws.onclose` handler performs the same
sweep): every outstanding pending entry is rejected with the
connection-closed error, the map is cleared and the handle dropped. -/
def closeRealtimeSocket (st : CorrState) : CorrState :=
  { st with connected := false,
            pending := [],
            settled := st.settled ++
              st.pending.map (fun e => (e.rid, Settlement.rejected "Realtime connection closed.")) }

/-- Deliver a list of inbound frames in order. -/
def processMsgs (st : CorrState) (msgs : List Payload) : CorrState :=
  msgs.foldl handleRealtimeMessage st

/-! ### Correlator lemmas -/

theorem settled_handle_mem {st : CorrState} {m : Payload} {r : String} {s : Settlement}
    (h : (r, s) ∈ (handleRealtimeMessage st m).settled) :
    (r, s) ∈ st.settled ∨ (m.request_id = some r ∧ s = outcomeOf m) := by
  cases hm : m.request_id with
  | none =>
    simp only [handleRealtimeMessage, hm] at h
    split at h <;> exact Or.inl h
  | some rid =>
    simp only [handleRealtimeMessage, hm] at h
    split at h
    · simp only [List.mem_append, List.mem_singleton, Prod.mk.injEq] at h
      rcases h with h | ⟨h1, h2⟩
      · exact Or.inl h
      · refine Or.inr ⟨?_, h2⟩
        rw [h1]
    · split at h <;> exact Or.inl h

theorem settled_processMsgs_mem {msgs : List Payload} :
    ∀ {st : CorrState} {r : String} {s : Settlement},
    (r, s) ∈ (processMsgs st msgs).settled →
    (r, s) ∈ st.settled ∨ ∃ p ∈ msgs, p.request_id = some r ∧ s = outcomeOf p := by
  induction msgs with
  | nil => intro st r s h; exact Or.inl h
  | cons m ms ih =>
    intro st r s h
    rcases @ih (handleRealtimeMessage st m) _ _ h with h1 | ⟨p, hp, hid, hs⟩
    · rcases settled_handle_mem h1 with h2 | ⟨hid, hs⟩
      · exact Or.inl h2
      · exact Or.inr ⟨m, List.mem_cons_self m ms, hid, hs⟩
    · exact Or.inr ⟨p, List.mem_cons_of_mem m hp, hid, hs⟩

theorem pending_handle_of_ne {st : CorrState} {m : Payload} {r : String}
    (hr : r ∈ pendingIds st) (hne : m.request_id ≠ some r) :
    r ∈ pendingIds (handleRealtimeMessage st m) := by
  cases hm : m.request_id with
  | none =>
    simp only [handleRealtimeMessage, hm]
    split <;> exact hr
  | some rid =>
    simp only [handleRealtimeMessage, hm]
    split
    · simp only [pendingIds, List.mem_map] at hr ⊢
      rcases hr with ⟨e, he, hrid⟩
      have hne2 : rid ≠ r := fun hh => hne (by rw [hm, hh])
      refine ⟨e, List.mem_filter.mpr ⟨he, ?_⟩, hrid⟩
      simp [hrid, hne2.symm]
    · split <;> exact hr

theorem pending_processMsgs_of_ne {msgs : List Payload} :
    ∀ {st : CorrState} {r : String},
    r ∈ pendingIds st → (∀ m ∈ msgs, m.request_id ≠ some r) →
    r ∈ pendingIds (processMsgs st msgs) := by
  induction msgs with
  | nil => intro st r hr _; exact hr
  | cons m ms ih =>
    intro st r hr hall
    exact ih (pending_handle_of_ne hr (hall m (List.mem_cons_self m ms)))
      (fun p hp => hall p (List.mem_cons_of_mem m hp))

theorem mem_upsertPending (l : List PendingEntry) (e : PendingEntry) :
    e ∈ upsertPending l e := by
  unfold upsertPending
  split
  · next hany =>
    simp only [List.any_eq_true] at hany
    rcases hany with ⟨x, hx, hxe⟩
    simp only [List.mem_map]
    exact ⟨x, hx, by simp [hxe]⟩
  · simp

theorem not_mem_pendingIds_filter (st : CorrState) (rid : String) :
    rid ∉ (st.pending.filter (fun e => e.rid ≠ rid)).map (·.rid) := by
  intro h
  simp only [List.mem_map] at h
  rcases h with ⟨e, he, hrid⟩
  have := (List.mem_filter.mp he).2
  simp [hrid] at this

theorem handle_matched {st : CorrState} {p : Payload} {rid : String}
    (hp : p.request_id = some rid) (hrid : rid ≠ "") (hpend : rid ∈ pendingIds st) :
    handleRealtimeMessage st p =
      { st with pending := st.pending.filter (fun e => e.rid ≠ rid),
                settled := st.settled ++ [(rid, outcomeOf p)] } := by
  simp only [handleRealtimeMessage, hp]
  rw [if_pos ⟨hrid, by simpa using hpend⟩]

theorem handle_unmatched {st : CorrState} {q : Payload} {rid : String}
    (hq : q.request_id = some rid) (hnp : rid ∉ pendingIds st) :
    (handleRealtimeMessage st q).settled = st.settled ∧
    (handleRealtimeMessage st q).pending = st.pending := by
  simp only [handleRealtimeMessage, hq]
  split
  · next hc => exact absurd (by simpa using hc.2) hnp
  · split <;> exact ⟨rfl, rfl⟩

theorem fireTimeout_of_mem {st : CorrState} {rid : String} (h : rid ∈ pendingIds st) :
    fireTimeout st rid =
      { st with pending := st.pending.filter (fun e => e.rid ≠ rid),
                settled := st.settled ++ [(rid, .rejected "Realtime request timed out.")] } := by
  simp only [fireTimeout]
  rw [if_pos (by simpa using h)]

/-! ### Claim theorems: C1, C2, C10 -/

/-- C1: for any set of pending correlated requests and any arrival order
of response frames, every settlement recorded while processing the
frames carries the request id of the frame that caused it (no promise
is resolved or rejected by a frame bearing another request's id), and
closing the connection afterwards empties the pending set and rejects
every still-pending request with the connection-closed error. -/
theorem correlator_delivery_and_close (st : CorrState) (msgs : List Payload) :
    (∀ r s, (r, s) ∈ (processMsgs st msgs).settled →
        (r, s) ∈ st.settled ∨ ∃ p ∈ msgs, p.request_id = some r ∧ s = outcomeOf p) ∧
    (closeRealtimeSocket (processMsgs st msgs)).pending = [] ∧
    (∀ r, r ∈ pendingIds (processMsgs st msgs) →
        (r, Settlement.rejected "Realtime connection closed.") ∈
          (closeRealtimeSocket (processMsgs st msgs)).settled) := by
  refine ⟨fun r s h => settled_processMsgs_mem h, rfl, fun r hr => ?_⟩
  simp only [closeRealtimeSocket, List.mem_append]
  right
  simp only [pendingIds, List.mem_map] at hr
  rcases hr with ⟨e, he, hrid⟩
  exact List.mem_map.mpr ⟨e, he, by rw [hrid]⟩

def c1State : CorrState := ⟨true, [⟨"a", 20000⟩, ⟨"b", 20000⟩], [], []⟩

def c1Msgs : List Payload := [⟨some "a", "image.classify", none⟩]

theorem correlator_delivery_and_close_witness :
    (closeRealtimeSocket (processMsgs c1State c1Msgs)).pending = [] ∧
    ("b", Settlement.rejected "Realtime connection closed.") ∈
      (closeRealtimeSocket (processMsgs c1State c1Msgs)).settled := by
  have h := correlator_delivery_and_close c1State c1Msgs
  exact ⟨h.2.1, h.2.2 "b" (by decide)⟩

/-- C10: a pending correlated request settles exactly once: a frame
matching a pending entry removes the entry (so the id is no longer
pending) in the same step that records the settlement, and a second
frame carrying the same request id then settles nothing and leaves the
pending set unchanged. -/
theorem correlator_settles_exactly_once
    (st : CorrState) (p q : Payload) (rid : String)
    (hp : p.request_id = some rid) (hrid : rid ≠ "")
    (hpend : rid ∈ pendingIds st)
    (hq : q.request_id = some rid) :
    rid ∉ pendingIds (handleRealtimeMessage st p) ∧
    (handleRealtimeMessage st p).settled = st.settled ++ [(rid, outcomeOf p)] ∧
    (handleRealtimeMessage (handleRealtimeMessage st p) q).settled =
      (handleRealtimeMessage st p).settled ∧
    pendingIds (handleRealtimeMessage (handleRealtimeMessage st p) q) =
      pendingIds (handleRealtimeMessage st p) := by
  have hm := handle_matched hp hrid hpend
  have hnot : rid ∉ pendingIds (handleRealtimeMessage st p) := by
    rw [hm]
    exact not_mem_pendingIds_filter st rid
  have hu := handle_unmatched hq hnot
  refine ⟨hnot, by rw [hm], hu.1, ?_⟩
  simp only [pendingIds, hu.2]

theorem correlator_settles_exactly_once_witness :
    "r1" ∉ pendingIds (handleRealtimeMessage ⟨true, [⟨"r1", 20000⟩], [], []⟩
        ⟨some "r1", "image.classify", none⟩) ∧
    (handleRealtimeMessage ⟨true, [⟨"r1", 20000⟩], [], []⟩
        ⟨some "r1", "image.classify", none⟩).settled =
      [("r1", outcomeOf ⟨some "r1", "image.classify", none⟩)] := by
  have h := correlator_settles_exactly_once ⟨true, [⟨"r1", 20000⟩], [], []⟩
    ⟨some "r1", "image.classify", none⟩ ⟨some "r1", "image.classify", none⟩ "r1"
    rfl (by decide) (by decide) rfl
  exact ⟨h.1, h.2.1⟩

/-- C2 (counterexample): the claim says a response arriving after the
timeout has fired "is ignored — logged".  A late non-error response
frame is dropped without touching the console log (the state is
entirely unchanged): here the timeout for `"r1"` has already fired, a
late success frame for `"r1"` arrives, and no log line is added. -/
theorem late_response_not_logged_cex :
    handleRealtimeMessage
        ⟨true, [], [("r1", Settlement.rejected "Realtime request timed out.")], []⟩
        ⟨some "r1", "image.classify", none⟩ =
      ⟨true, [], [("r1", Settlement.rejected "Realtime request timed out.")], []⟩ ∧
    (handleRealtimeMessage
        ⟨true, [], [("r1", Settlement.rejected "Realtime request timed out.")], []⟩
        ⟨some "r1", "image.classify", none⟩).log = [] := by
  constructor <;> rfl

/-- C2 (amended): a correlated request sent without an explicit timeout
arms the default `REALTIME_TIMEOUT_MS = 20000` timer; if no frame
carrying its request id arrives before the timer fires, the promise
rejects with the timeout error and the pending entry is removed; a
frame for that id arriving after expiry settles no promise and leaves
the pending set unchanged — it is logged when it is an `"error"` frame
and silently dropped otherwise, never thrown. -/
theorem correlator_timeout_behavior
    (st st1 st2 st3 : CorrState) (p : Payload) (freshId rid : String)
    (msgs : List Payload)
    (hconn : st.connected = true)
    (hrid : rid = effectiveRequestId p freshId)
    (_hne : rid ≠ "")
    (hmsgs : ∀ m ∈ msgs, m.request_id ≠ some rid)
    (h1 : st1 = sendRealtimeRequest st p freshId none)
    (h2 : st2 = processMsgs st1 msgs)
    (h3 : st3 = fireTimeout st2 rid) :
    REALTIME_TIMEOUT_MS = 20000 ∧
    PendingEntry.mk rid 20000 ∈ st1.pending ∧
    rid ∈ pendingIds st2 ∧
    rid ∉ pendingIds st3 ∧
    st3.settled = st2.settled ++ [(rid, Settlement.rejected "Realtime request timed out.")] ∧
    (∀ late : Payload, late.request_id = some rid →
      (handleRealtimeMessage st3 late).settled = st3.settled ∧
      pendingIds (handleRealtimeMessage st3 late) = pendingIds st3 ∧
      (late.type = "error" →
        (handleRealtimeMessage st3 late).log =
          st3.log ++ ["Realtime error: " ++ late.detail.getD "Unknown realtime error"]) ∧
      (late.type ≠ "error" → handleRealtimeMessage st3 late = st3)) := by
  have hentry : PendingEntry.mk rid 20000 ∈ st1.pending := by
    rw [h1]
    simp only [sendRealtimeRequest, hconn, if_true]
    rw [hrid]
    exact mem_upsertPending _ _
  have hmem1 : rid ∈ pendingIds st1 := by
    simp only [pendingIds, List.mem_map]
    exact ⟨⟨rid, 20000⟩, hentry, rfl⟩
  have hmem2 : rid ∈ pendingIds st2 := by
    rw [h2]
    exact pending_processMsgs_of_ne hmem1 hmsgs
  have hfire := fireTimeout_of_mem hmem2
  have hnot3 : rid ∉ pendingIds st3 := by
    rw [h3, hfire]
    exact not_mem_pendingIds_filter st2 rid
  refine ⟨rfl, hentry, hmem2, hnot3, by rw [h3, hfire], fun late hlate => ?_⟩
  have hu := handle_unmatched hlate hnot3
  refine ⟨hu.1, by simp only [pendingIds, hu.2], fun herr => ?_, fun herr => ?_⟩
  · simp only [handleRealtimeMessage, hlate]
    split
    · next hc => exact absurd (by simpa using hc.2) hnot3
    · split
      · rfl
      · next hne2 => simp [herr] at hne2
  · simp only [handleRealtimeMessage, hlate]
    split
    · next hc => exact absurd (by simpa using hc.2) hnot3
    · split
      · next heq => exact absurd (by simpa using heq) herr
      · rfl

def c2State : CorrState := ⟨true, [], [], []⟩

def c2Payload : Payload := ⟨none, "image.classify", none⟩

theorem correlator_timeout_behavior_witness :
    PendingEntry.mk "gen-1" 20000 ∈
      (sendRealtimeRequest c2State c2Payload "gen-1" none).pending ∧
    "gen-1" ∉ pendingIds (fireTimeout
      (processMsgs (sendRealtimeRequest c2State c2Payload "gen-1" none)
        [⟨some "other", "image.classify", none⟩]) "gen-1") := by
  have h := correlator_timeout_behavior c2State
    (sendRealtimeRequest c2State c2Payload "gen-1" none)
    (processMsgs (sendRealtimeRequest c2State c2Payload "gen-1" none)
      [⟨some "other", "image.classify", none⟩])
    (fireTimeout (processMsgs (sendRealtimeRequest c2State c2Payload "gen-1" none)
      [⟨some "other", "image.classify", none⟩]) "gen-1")
    c2Payload "gen-1" "gen-1" [⟨some "other", "image.classify", none⟩]
    rfl (by decide) (by decide) (by decide) rfl rfl rfl
  exact ⟨h.2.1, h.2.2.2.1⟩

/-! ## Label normalization (`components/image-diagram/image-diagram.js`)

`#normalizeLabel` / `#matchMappingByLabel` work on JS strings with
`trim()`, `toLowerCase()` and the regexes `[^a-z0-9]+` and `^_|_$`.
We model the ASCII fragment these labels live in: `jsToLower` lowers
`A`–`Z`, `jsTrim` strips ASCII whitespace, and `slugify` replaces every
maximal run of non-`[a-z0-9]` characters by one underscore and then
strips a leading and a trailing underscore. -/

def jsToLowerChar (c : Char) : Char :=
  if 65 ≤ c.toNat ∧ c.toNat ≤ 90 then Char.ofNat (c.toNat + 32) else c

def jsToLower (s : String) : String :=
  String.mk (s.data.map jsToLowerChar)

def isJsSpace (c : Char) : Bool :=
  c.toNat == 32 || c.toNat == 9 || c.toNat == 10 || c.toNat == 13 ||
    c.toNat == 11 || c.toNat == 12

def jsTrim (s : String) : String :=
  String.mk (((s.data.dropWhile isJsSpace).reverse.dropWhile isJsSpace).reverse)

/-- Characters kept by the slug regex `[^a-z0-9]+` (it runs on the
already lower-cased label). -/
def isSlugChar (c : Char) : Bool :=
  (97 ≤ c.toNat && c.toNat ≤ 122) || (48 ≤ c.toNat && c.toNat ≤ 57)

/-- Collapse each run of consecutive underscores to a single one;
applied after every non-slug character has been mapped to `'_'` this is
exactly `replace(/[^a-z0-9]+/g, "_")`. -/
def collapseUnderscores : List Char → List Char
  | [] => []
  | [c] => [c]
  | a :: b :: rest =>
    if a = '_' ∧ b = '_' then collapseUnderscores (b :: rest)
    else a :: collapseUnderscores (b :: rest)

/-- `replace(/^_|_$/g, "")`: the anchors match at most once each, so
exactly one leading and one trailing underscore are removed (after the
run-collapse there is at most one of each anyway). -/
def dropEdgeUnderscore : List Char → List Char
  | '_' :: rest => rest
  | l => l

def slugify (s : String) : String :=
  let mapped := s.data.map (fun c => if isSlugChar c then c else '_')
  let collapsed := collapseUnderscores mapped
  String.mk ((dropEdgeUnderscore (dropEdgeUnderscore collapsed).reverse).reverse)

/-- One value of the `diagram_mapping.json` object. -/
structure MapEntry where
  x : Rat
  y : Rat
  group : String
  display_name : String
deriving DecidableEq, Repr

/-- The mapping object: association list in key order, keys unique in
any real mapping (a JS object). -/
abbrev Mapping := List (String × MapEntry)

def lookupKey (m : Mapping) (k : String) : Option MapEntry :=
  (m.find? (fun kv => kv.1 == k)).map (·.2)

def LABEL_ALIASES : List (String × String) :=
  [("gastroesophageal junction (gej)", "ge_junction"),
   ("ge junction", "ge_junction"),
   ("gej", "ge_junction"),
   ("third portion (d3)", "duodenum_third_part"),
   ("third portion of duodenum (d3)", "duodenum_third_part"),
   ("fourth portion (d4)", "duodenum_fourth_part"),
   ("fourth portion of duodenum (d4)", "duodenum_fourth_part"),
   ("z line", "z_line"),
   ("z-line", "z_line")]

def aliasLookup (s : String) : Option String :=
  (LABEL_ALIASES.find? (fun kv => kv.1 == s)).map (·.2)

def upsertAssoc (l : List (String × String)) (k v : String) : List (String × String) :=
  if l.any (fun e => e.1 == k) then
    l.map (fun e => if e.1 == k then (k, v) else e)
  else l ++ [(k, v)]

/-- `setMapping`: `displayNameIndex` maps each lower-cased
`display_name` to its key; a later entry with the same lower-cased
display name overwrites an earlier one. -/
def displayNameIndex (m : Mapping) : List (String × String) :=
  m.foldl (fun acc kv => upsertAssoc acc (jsToLower kv.2.display_name) kv.1) []

def indexLookup (idx : List (String × String)) (s : String) : Option String :=
  (idx.find? (fun kv => kv.1 == s)).map (·.2)

/-- `#matchMappingByLabel(lowerLabel)`: alias table, direct key,
display-name index, then slug, in that order. -/
def matchMappingByLabel (m : Mapping) (lowerLabel : String) :
    Option (String × MapEntry) :=
  match (aliasLookup lowerLabel).bind
      (fun ak => (lookupKey m ak).map (fun e => (ak, e))) with
  | some r => some r
  | none =>
  match lookupKey m lowerLabel with
  | some e => some (lowerLabel, e)
  | none =>
  match (indexLookup (displayNameIndex m) lowerLabel).bind
      (fun dk => if dk ≠ "" then (lookupKey m dk).map (fun e => (dk, e)) else none) with
  | some r => some r
  | none =>
    let slug := slugify lowerLabel
    if slug ≠ "" then (lookupKey m slug).map (fun e => (slug, e)) else none

/-- Result of `#normalizeLabel`. -/
structure NormalizedLabel where
  key : String
  coords : Option MapEntry
  displayName : String
  group : Option String
deriving DecidableEq, Repr

/-- `#normalizeLabel(label)`; `label` is `Option String` because a
never-classified image carries `label: null` and the code guards with
`(label || "")`. -/
def normalizeLabel (m : Mapping) (label : Option String) : NormalizedLabel :=
  let cleaned := jsTrim (label.getD "")
  let lower := jsToLower cleaned
  match matchMappingByLabel m lower with
  | some (key, coords) => ⟨key, some coords, coords.display_name, some coords.group⟩
  | none =>
    if cleaned ≠ "" then ⟨lower, none, cleaned, none⟩
    else ⟨"unlabeled", none, "Unlabeled", none⟩

/-! ### C3: the four-stage pipeline, stated stage by stage -/

/-- Stage 1 of the claimed pipeline: alias-table exact match on the
lower-cased trimmed label (the alias target must exist in the
mapping). -/
def aliasStage (m : Mapping) (l : String) : Option (String × MapEntry) :=
  (aliasLookup l).bind fun ak => (lookupKey m ak).map (fun e => (ak, e))

/-- Stage 2: direct key match in the mapping. -/
def directKeyStage (m : Mapping) (l : String) : Option (String × MapEntry) :=
  (lookupKey m l).map (fun e => (l, e))

/-- Stage 3: match against the index of lower-cased display names. -/
def displayNameStage (m : Mapping) (l : String) : Option (String × MapEntry) :=
  (indexLookup (displayNameIndex m) l).bind fun dk =>
    if dk ≠ "" then (lookupKey m dk).map (fun e => (dk, e)) else none

/-- Stage 4: slugify, then retry the key match. -/
def slugStage (m : Mapping) (l : String) : Option (String × MapEntry) :=
  if slugify l ≠ "" then (lookupKey m (slugify l)).map (fun e => (slugify l, e))
  else none

/-- The normalization pipeline exactly as the (amended) claim words it:
the four stages are tried in order on the lower-cased trimmed label,
the first success determines bucket key and coordinates, and if all
four fail the result is an unmapped bucket keyed by the lower-cased
cleaned label, or the `"unlabeled"` bucket when the cleaned label is
empty. -/
def normalizePipeline (m : Mapping) (label : Option String) : NormalizedLabel :=
  let cleaned := jsTrim (label.getD "")
  let lower := jsToLower cleaned
  match [aliasStage, directKeyStage, displayNameStage, slugStage].findSome?
      (fun stage => stage m lower) with
  | some (k, e) => ⟨k, some e, e.display_name, some e.group⟩
  | none =>
    if cleaned ≠ "" then ⟨lower, none, cleaned, none⟩
    else ⟨"unlabeled", none, "Unlabeled", none⟩

/-- C3 (counterexample): when all four stages fail, the bucket key is
the LOWER-CASED cleaned label, not the cleaned label itself as the
claim states: the label `"Foo"` has cleaned form `"Foo"`, all four
stages fail, and the bucket key is `"foo"` ≠ `"Foo"`. -/
theorem unmapped_bucket_key_is_lowered_cex :
    matchMappingByLabel [] (jsToLower (jsTrim "Foo")) = none ∧
    jsTrim "Foo" = "Foo" ∧
    (normalizeLabel [] (some "Foo")).key = "foo" ∧
    (normalizeLabel [] (some "Foo")).key ≠ jsTrim "Foo" := by
  refine ⟨rfl, rfl, rfl, ?_⟩
  decide

/-- C3 (amended): `#normalizeLabel` is extensionally the staged
pipeline: alias table, direct key, display-name index, then slugify
and retry, the first success deciding key and coordinates; when all
four stages fail the bucket is keyed by the lower-cased cleaned label,
or `"unlabeled"` when the cleaned label is empty. -/
theorem normalizeLabel_eq_pipeline (m : Mapping) (label : Option String) :
    normalizeLabel m label = normalizePipeline m label := by
  unfold normalizeLabel normalizePipeline matchMappingByLabel
  unfold aliasStage directKeyStage displayNameStage slugStage
  simp only [List.findSome?]
  cases (aliasLookup (jsToLower (jsTrim (label.getD "")))).bind
      (fun ak => Option.map (fun e => (ak, e)) (lookupKey m ak)) with
  | some r => rfl
  | none =>
    cases lookupKey m (jsToLower (jsTrim (label.getD ""))) with
    | some e => rfl
    | none =>
      cases (indexLookup (displayNameIndex m) (jsToLower (jsTrim (label.getD "")))).bind
          (fun dk => if dk ≠ "" then Option.map (fun e => (dk, e)) (lookupKey m dk)
            else none) with
      | some r => rfl
      | none =>
        cases (if slugify (jsToLower (jsTrim (label.getD ""))) ≠ "" then
            Option.map (fun e => (slugify (jsToLower (jsTrim (label.getD ""))), e))
              (lookupKey m (slugify (jsToLower (jsTrim (label.getD "")))))
          else none) with
        | some r => rfl
        | none => rfl

/-! ### C4: key idempotence of normalization -/

theorem charOfNat_toNat {n : Nat} (h : n.isValidChar) : (Char.ofNat n).toNat = n := by
  unfold Char.ofNat
  rw [dif_pos h]
  unfold Char.ofNatAux Char.toNat
  simp [UInt32.toNat]

theorem toNat_jsToLowerChar (c : Char) :
    (jsToLowerChar c).toNat =
      if 65 ≤ c.toNat ∧ c.toNat ≤ 90 then c.toNat + 32 else c.toNat := by
  unfold jsToLowerChar
  split
  · next h => exact charOfNat_toNat (Or.inl (by omega))
  · rfl

theorem natBeq_false {a b : Nat} (h : a ≠ b) : (a == b) = false := by
  simpa using h

theorem isJsSpace_jsToLowerChar (c : Char) :
    isJsSpace (jsToLowerChar c) = isJsSpace c := by
  unfold isJsSpace
  rw [toNat_jsToLowerChar]
  split
  · next h =>
    rw [natBeq_false (a := c.toNat + 32) (by omega),
        natBeq_false (a := c.toNat + 32) (by omega),
        natBeq_false (a := c.toNat + 32) (by omega),
        natBeq_false (a := c.toNat + 32) (by omega),
        natBeq_false (a := c.toNat + 32) (by omega),
        natBeq_false (a := c.toNat + 32) (by omega),
        natBeq_false (a := c.toNat) (by omega),
        natBeq_false (a := c.toNat) (by omega),
        natBeq_false (a := c.toNat) (by omega),
        natBeq_false (a := c.toNat) (by omega),
        natBeq_false (a := c.toNat) (by omega),
        natBeq_false (a := c.toNat) (by omega)]
  · rfl

theorem jsToLowerChar_idem (c : Char) :
    jsToLowerChar (jsToLowerChar c) = jsToLowerChar c := by
  have ht := toNat_jsToLowerChar c
  by_cases h : 65 ≤ c.toNat ∧ c.toNat ≤ 90
  · rw [if_pos h] at ht
    conv_lhs => rw [jsToLowerChar]
    rw [if_neg (by omega)]
  · rw [if_neg h] at ht
    conv_lhs => rw [jsToLowerChar]
    rw [ht, if_neg h]

theorem jsToLower_idem (s : String) : jsToLower (jsToLower s) = jsToLower s := by
  unfold jsToLower
  simp only [List.map_map]
  congr 1
  exact List.map_congr_left (fun a _ => jsToLowerChar_idem a)

theorem trimmed_rdrop_drop (l : List Char) :
    ((l.dropWhile isJsSpace).reverse.dropWhile isJsSpace).reverse =
      List.rdropWhile isJsSpace (l.dropWhile isJsSpace) := rfl

theorem trimmed_idem (l : List Char) :
    List.rdropWhile isJsSpace (List.dropWhile isJsSpace
      (List.rdropWhile isJsSpace (List.dropWhile isJsSpace l))) =
    List.rdropWhile isJsSpace (List.dropWhile isJsSpace l) := by
  have h1 : List.dropWhile isJsSpace
      (List.rdropWhile isJsSpace (List.dropWhile isJsSpace l)) =
      List.rdropWhile isJsSpace (List.dropWhile isJsSpace l) := by
    rw [List.dropWhile_eq_self_iff]
    intro hl
    have hpre := List.rdropWhile_prefix isJsSpace (List.dropWhile isJsSpace l)
    have hlen : 0 < (List.dropWhile isJsSpace l).length :=
      lt_of_lt_of_le hl hpre.length_le
    have hhead := List.dropWhile_eq_self_iff.mp
      (List.dropWhile_idempotent isJsSpace l) hlen
    have hgets := hpre.getElem (n := 0) hl
    simp only [List.get_eq_getElem]
    simp only [List.get_eq_getElem] at hhead
    rw [hgets]
    exact hhead
  rw [h1, List.rdropWhile_idempotent]

theorem trimmed_map_lower (l : List Char) :
    List.rdropWhile isJsSpace (List.dropWhile isJsSpace (l.map jsToLowerChar)) =
      (List.rdropWhile isJsSpace (List.dropWhile isJsSpace l)).map jsToLowerChar := by
  have hp : isJsSpace ∘ jsToLowerChar = isJsSpace := funext isJsSpace_jsToLowerChar
  rw [List.dropWhile_map, hp]
  unfold List.rdropWhile
  rw [← List.map_reverse, List.dropWhile_map, hp, ← List.map_reverse]

theorem jsTrim_jsToLower_jsTrim (s : String) :
    jsTrim (jsToLower (jsTrim s)) = jsToLower (jsTrim s) := by
  unfold jsTrim jsToLower
  apply String.ext
  show ((((((s.data.dropWhile isJsSpace).reverse.dropWhile isJsSpace).reverse.map
      jsToLowerChar).dropWhile isJsSpace).reverse.dropWhile isJsSpace).reverse) = _
  rw [trimmed_rdrop_drop, trimmed_rdrop_drop]
  rw [trimmed_map_lower, trimmed_idem]

theorem jsToLower_ne_empty {s : String} (h : s ≠ "") : jsToLower s ≠ "" := by
  intro hc
  apply h
  apply String.ext
  have := congrArg String.data hc
  simp only [jsToLower] at this
  have hdata : s.data.map jsToLowerChar = [] := this
  simpa using List.map_eq_nil_iff.mp hdata

theorem lookupKey_mem {m : Mapping} {k : String} {e : MapEntry}
    (h : lookupKey m k = some e) : ∃ kv ∈ m, kv.1 = k ∧ kv.2 = e := by
  unfold lookupKey at h
  cases hf : m.find? (fun kv => kv.1 == k) with
  | none => rw [hf] at h; simp at h
  | some kv =>
    rw [hf] at h
    refine ⟨kv, List.mem_of_find?_eq_some hf,
      by simpa using List.find?_some hf, by simpa using h⟩

theorem mem_upsertAssoc {l : List (String × String)} {k v : String}
    {e : String × String} (h : e ∈ upsertAssoc l k v) : e ∈ l ∨ e.1 = k := by
  unfold upsertAssoc at h
  split at h
  · simp only [List.mem_map] at h
    rcases h with ⟨x, hx, hxe⟩
    by_cases hxk : x.1 == k
    · rw [if_pos hxk] at hxe
      right
      rw [← hxe]
    · rw [if_neg hxk] at hxe
      left
      rw [← hxe]
      exact hx
  · simp only [List.mem_append, List.mem_singleton] at h
    rcases h with h | h
    · exact Or.inl h
    · right
      rw [h]

theorem displayNameIndex_mem_fst {m : Mapping} {e : String × String} :
    ∀ {acc : List (String × String)},
      e ∈ m.foldl (fun acc kv => upsertAssoc acc (jsToLower kv.2.display_name) kv.1) acc →
      e ∈ acc ∨ ∃ kv ∈ m, e.1 = jsToLower kv.2.display_name := by
  induction m with
  | nil => intro acc h; exact Or.inl h
  | cons kv rest ih =>
    intro acc h
    rcases @ih (upsertAssoc acc (jsToLower kv.2.display_name) kv.1) h with
      h1 | ⟨kv2, hkv2, hfst⟩
    · rcases mem_upsertAssoc h1 with h2 | h2
      · exact Or.inl h2
      · exact Or.inr ⟨kv, List.mem_cons_self _ _, h2⟩
    · exact Or.inr ⟨kv2, List.mem_cons_of_mem _ hkv2, hfst⟩

theorem indexLookup_displayName_none {m : Mapping} {s : String}
    (h : ∀ kv ∈ m, jsToLower kv.2.display_name ≠ s) :
    indexLookup (displayNameIndex m) s = none := by
  unfold indexLookup
  cases hf : (displayNameIndex m).find? (fun kv => kv.1 == s) with
  | none => rfl
  | some e =>
    exfalso
    have hmem : e ∈ m.foldl
        (fun acc kv => upsertAssoc acc (jsToLower kv.2.display_name) kv.1) [] :=
      List.mem_of_find?_eq_some hf
    have he1 : e.1 = s := by simpa using List.find?_some hf
    rcases @displayNameIndex_mem_fst m e [] hmem with h1 | ⟨kv, hkv, hfst⟩
    · simp at h1
    · exact h kv hkv (by rw [← hfst, he1])

theorem matchMappingByLabel_lookup {m : Mapping} {l k : String} {e : MapEntry}
    (h : matchMappingByLabel m l = some (k, e)) : lookupKey m k = some e := by
  unfold matchMappingByLabel at h
  cases h1 : (aliasLookup l).bind
      (fun ak => (lookupKey m ak).map (fun e => (ak, e))) with
  | some r =>
    rw [h1] at h
    simp only [Option.some.injEq] at h
    rcases Option.bind_eq_some.mp h1 with ⟨ak, _, hmap⟩
    rcases Option.map_eq_some'.mp hmap with ⟨e2, hlk, hpair⟩
    rw [h] at hpair
    obtain ⟨hk, he⟩ := Prod.mk.injEq .. ▸ hpair
    rw [hk, he] at hlk; exact hlk
  | none =>
    rw [h1] at h
    cases h2 : lookupKey m l with
    | some e2 =>
      rw [h2] at h
      simp only [Option.some.injEq, Prod.mk.injEq] at h
      rw [← h.1, ← h.2]
      exact h2
    | none =>
      rw [h2] at h
      cases h3 : (indexLookup (displayNameIndex m) l).bind
          (fun dk => if dk ≠ "" then (lookupKey m dk).map (fun e => (dk, e))
            else none) with
      | some r =>
        rw [h3] at h
        simp only [Option.some.injEq] at h
        rcases Option.bind_eq_some.mp h3 with ⟨dk, _, hif⟩
        have hmap : (lookupKey m dk).map (fun e => (dk, e)) = some r := by
          by_cases hdk : dk ≠ ""
          · rwa [if_pos hdk] at hif
          · rw [if_neg hdk] at hif; exact absurd hif (by simp)
        rcases Option.map_eq_some'.mp hmap with ⟨e2, hlk, hpair⟩
        rw [h] at hpair
        obtain ⟨hk, he⟩ := Prod.mk.injEq .. ▸ hpair
        rw [hk, he] at hlk; exact hlk
      | none =>
        rw [h3] at h
        by_cases hs : slugify l ≠ ""
        · rw [if_pos hs] at h
          rcases Option.map_eq_some'.mp h with ⟨e2, hlk, hpair⟩
          obtain ⟨hk, he⟩ := Prod.mk.injEq .. ▸ hpair
          rw [hk, he] at hlk; exact hlk
        · rw [if_neg hs] at h
          exact absurd h (by simp)

theorem matchMappingByLabel_of_key {m : Mapping} {k : String} {e : MapEntry}
    (halias : aliasLookup k = none) (hk : lookupKey m k = some e) :
    matchMappingByLabel m k = some (k, e) := by
  unfold matchMappingByLabel
  simp only [halias, Option.none_bind, hk]

/-- A small concrete mapping in the shape of `diagram_mapping.json`. -/
def demoMapping : Mapping :=
  [("z_line", ⟨(1 : Rat)/2, (1 : Rat)/4, "esophagus", "Z-line"⟩)]

/-- C4 (counterexample): normalization is not idempotent as stated.
With the `z_line` demo mapping and label `"Bar"` every stage fails, so
`normalize("Bar")` is the unmapped bucket
`⟨key := "bar", displayName := "Bar"⟩`; feeding the key `"bar"` back
yields `⟨key := "bar", displayName := "bar"⟩`, a different result. -/
theorem normalize_not_idempotent_cex :
    normalizeLabel demoMapping
        (some (normalizeLabel demoMapping (some "Bar")).key) ≠
      normalizeLabel demoMapping (some "Bar") := by
  decide

/-- C4 (amended): the bucket KEY is idempotent, for mappings whose keys
are canonical (fixed by trim + lower-casing), not alias names, and
whose display names do not lower-case to `"unlabeled"`:
`normalize(normalize(L).key).key = normalize(L).key`.  (Full result
idempotence fails only in the `displayName` field, which keeps the
original casing on the first pass; see the counterexample.) -/
theorem normalize_key_idem (m : Mapping) (label : Option String)
    (hkeys : ∀ kv ∈ m, jsToLower (jsTrim kv.1) = kv.1)
    (halias : ∀ kv ∈ m, aliasLookup kv.1 = none)
    (hdn : ∀ kv ∈ m, jsToLower kv.2.display_name ≠ "unlabeled") :
    (normalizeLabel m (some (normalizeLabel m label).key)).key =
      (normalizeLabel m label).key := by
  cases hmatch : matchMappingByLabel m (jsToLower (jsTrim (label.getD ""))) with
  | some ke =>
    obtain ⟨k, e⟩ := ke
    have hres : (normalizeLabel m label).key = k := by
      simp only [normalizeLabel, hmatch]
    rw [hres]
    have hlk := matchMappingByLabel_lookup hmatch
    obtain ⟨kv, hkvmem, hkv1, _⟩ := lookupKey_mem hlk
    have h1 : jsToLower (jsTrim k) = k := by rw [← hkv1]; exact hkeys kv hkvmem
    have h2 : aliasLookup k = none := by rw [← hkv1]; exact halias kv hkvmem
    simp only [normalizeLabel, Option.getD_some, h1,
      matchMappingByLabel_of_key h2 hlk]
  | none =>
    by_cases hcl : jsTrim (label.getD "") ≠ ""
    · have hres : (normalizeLabel m label).key = jsToLower (jsTrim (label.getD "")) := by
        simp only [normalizeLabel, hmatch, if_pos hcl]
      rw [hres]
      have htrim : jsTrim (jsToLower (jsTrim (label.getD ""))) =
          jsToLower (jsTrim (label.getD "")) := jsTrim_jsToLower_jsTrim _
      have hlow : jsToLower (jsToLower (jsTrim (label.getD ""))) =
          jsToLower (jsTrim (label.getD "")) := jsToLower_idem _
      have hLne : jsToLower (jsTrim (label.getD "")) ≠ "" := jsToLower_ne_empty hcl
      simp only [normalizeLabel, Option.getD_some, htrim, hlow, hmatch, if_pos hLne]
    · have hres : (normalizeLabel m label).key = "unlabeled" := by
        simp only [normalizeLabel, hmatch, if_neg hcl]
      rw [hres]
      have ht : jsTrim "unlabeled" = "unlabeled" := rfl
      have hl : jsToLower "unlabeled" = "unlabeled" := rfl
      cases hdir : lookupKey m "unlabeled" with
      | some e =>
        have hm2 : matchMappingByLabel m "unlabeled" = some ("unlabeled", e) := by
          have ha : aliasLookup "unlabeled" = none := rfl
          unfold matchMappingByLabel
          simp only [ha, Option.none_bind, hdir]
        simp only [normalizeLabel, Option.getD_some, ht, hl, hm2]
      | none =>
        have hidx := indexLookup_displayName_none (s := "unlabeled") hdn
        have hm2 : matchMappingByLabel m "unlabeled" = none := by
          have ha : aliasLookup "unlabeled" = none := rfl
          have hslug : slugify "unlabeled" = "unlabeled" := rfl
          unfold matchMappingByLabel
          simp only [ha, Option.none_bind, hdir, hidx, hslug]
          simp
        simp only [normalizeLabel, Option.getD_some, ht, hl, hm2]
        rfl

theorem normalize_key_idem_witness :
    (normalizeLabel demoMapping
        (some (normalizeLabel demoMapping (some "Z-LINE")).key)).key =
      (normalizeLabel demoMapping (some "Z-LINE")).key :=
  normalize_key_idem demoMapping (some "Z-LINE") (by decide) (by decide) (by decide)

/-! ### C5: marker buckets (`#buildMarkers` / `setImages`) -/

/-- The slice of an upload item that `ImageDiagram` reads. -/
structure DiagramImage where
  remoteId : Option String
  label : Option String
  status : String
deriving DecidableEq, Repr

/-- `setImages(images)` keeps only classified items. -/
def filterClassified (images : List DiagramImage) : List DiagramImage :=
  images.filter (fun img => img.status == "classified")

/-- One value of the `buckets` map: the normalized fields of the FIRST
image inserted under this key, plus the images in insertion order. -/
structure Bucket where
  key : String
  coords : Option MapEntry
  displayName : String
  group : Option String
  items : List DiagramImage
deriving DecidableEq, Repr

/-- `buckets.get(key).items.push(img)` with first-insertion creating
the bucket (JS `Map` preserves insertion order). -/
def insertIntoBuckets (buckets : List Bucket) (n : NormalizedLabel)
    (img : DiagramImage) : List Bucket :=
  if buckets.any (fun b => b.key == n.key) then
    buckets.map (fun b =>
      if b.key == n.key then { b with items := b.items ++ [img] } else b)
  else buckets ++ [⟨n.key, n.coords, n.displayName, n.group, [img]⟩]

/-- `#buildMarkers()`: group the classified images by normalized key. -/
def buildMarkers (m : Mapping) (images : List DiagramImage) : List Bucket :=
  images.foldl (fun acc img => insertIntoBuckets acc (normalizeLabel m img.label) img) []

theorem mem_insertIntoBuckets {buckets : List Bucket} {n : NormalizedLabel}
    {img : DiagramImage} {b : Bucket} (hb : b ∈ insertIntoBuckets buckets n img) :
    (∃ b0 ∈ buckets, b.key = b0.key ∧ ∀ x ∈ b.items, x ∈ b0.items ∨ x = img) ∨
      (b.key = n.key ∧ b.items = [img]) := by
  unfold insertIntoBuckets at hb
  split at hb
  · simp only [List.mem_map] at hb
    rcases hb with ⟨b0, hb0, hbe⟩
    by_cases hk : b0.key == n.key
    · rw [if_pos hk] at hbe
      refine Or.inl ⟨b0, hb0, by rw [← hbe], ?_⟩
      intro x hx
      rw [← hbe] at hx
      simp only [List.mem_append, List.mem_singleton] at hx
      exact hx
    · rw [if_neg hk] at hbe
      exact Or.inl ⟨b0, hb0, by rw [← hbe], fun x hx => Or.inl (hbe ▸ hx)⟩
  · simp only [List.mem_append, List.mem_singleton] at hb
    rcases hb with hb | hb
    · exact Or.inl ⟨b, hb, rfl, fun x hx => Or.inl hx⟩
    · right
      rw [hb]
      exact ⟨rfl, rfl⟩

theorem insertIntoBuckets_inv {m : Mapping} {acc : List Bucket} {i : DiagramImage}
    (hacc : ∀ b ∈ acc, ∀ x ∈ b.items, (normalizeLabel m x.label).key = b.key) :
    ∀ b ∈ insertIntoBuckets acc (normalizeLabel m i.label) i,
      ∀ x ∈ b.items, (normalizeLabel m x.label).key = b.key := by
  intro b hb x hx
  unfold insertIntoBuckets at hb
  split at hb
  · simp only [List.mem_map] at hb
    rcases hb with ⟨b0, hb0, hbe⟩
    by_cases hk : b0.key == (normalizeLabel m i.label).key
    · rw [if_pos hk] at hbe
      subst hbe
      simp only [List.mem_append, List.mem_singleton] at hx
      rcases hx with hx | hx
      · exact hacc b0 hb0 x hx
      · subst hx
        exact (beq_iff_eq.mp hk).symm
    · rw [if_neg hk] at hbe
      subst hbe
      exact hacc b0 hb0 x hx
  · simp only [List.mem_append, List.mem_singleton] at hb
    rcases hb with hb | hb
    · exact hacc b hb x hx
    · subst hb
      simp only [List.mem_singleton] at hx
      subst hx
      rfl

theorem buildMarkers_inv (m : Mapping) (imgs : List DiagramImage) :
    ∀ b ∈ buildMarkers m imgs, ∀ x ∈ b.items,
      (normalizeLabel m x.label).key = b.key := by
  unfold buildMarkers
  suffices h : ∀ acc : List Bucket,
      (∀ b ∈ acc, ∀ x ∈ b.items, (normalizeLabel m x.label).key = b.key) →
      ∀ b ∈ imgs.foldl
        (fun acc img => insertIntoBuckets acc (normalizeLabel m img.label) img) acc,
      ∀ x ∈ b.items, (normalizeLabel m x.label).key = b.key by
    exact h [] (by simp)
  induction imgs with
  | nil => intro acc hacc; exact hacc
  | cons i rest ih =>
    intro acc hacc
    exact ih _ (insertIntoBuckets_inv hacc)

/-- C5: bucket grouping keys buckets by the normalized location id,
never by the raw label text (every image in a bucket normalizes to the
bucket's key); in particular two classified images labeled `"Z-line"`
and `"z line"`, over any mapping containing the key `z_line`, land in
exactly one bucket holding both images and positioned by the `z_line`
mapping entry. -/
theorem marker_bucket_grouping (m : Mapping) (e : MapEntry) (i1 i2 : DiagramImage)
    (hz : lookupKey m "z_line" = some e)
    (h1l : i1.label = some "Z-line") (h1s : i1.status = "classified")
    (h2l : i2.label = some "z line") (h2s : i2.status = "classified") :
    buildMarkers m (filterClassified [i1, i2]) =
      [⟨"z_line", some e, e.display_name, some e.group, [i1, i2]⟩] ∧
    (∀ imgs : List DiagramImage, ∀ b ∈ buildMarkers m imgs,
      ∀ x ∈ b.items, (normalizeLabel m x.label).key = b.key) := by
  refine ⟨?_, buildMarkers_inv m⟩
  have hn1 : normalizeLabel m i1.label =
      ⟨"z_line", some e, e.display_name, some e.group⟩ := by
    rw [h1l]
    have hlow : jsToLower (jsTrim "Z-line") = "z-line" := rfl
    have halias : aliasLookup "z-line" = some "z_line" := rfl
    simp only [normalizeLabel, Option.getD_some, hlow]
    unfold matchMappingByLabel
    simp [halias, hz]
  have hn2 : normalizeLabel m i2.label =
      ⟨"z_line", some e, e.display_name, some e.group⟩ := by
    rw [h2l]
    have hlow : jsToLower (jsTrim "z line") = "z line" := rfl
    have halias : aliasLookup "z line" = some "z_line" := rfl
    simp only [normalizeLabel, Option.getD_some, hlow]
    unfold matchMappingByLabel
    simp [halias, hz]
  have hfc : filterClassified [i1, i2] = [i1, i2] := by
    simp [filterClassified, h1s, h2s]
  rw [hfc]
  simp only [buildMarkers, List.foldl, hn1, hn2]
  simp [insertIntoBuckets]

def zEntry : MapEntry := ⟨(1 : Rat)/2, (1 : Rat)/4, "esophagus", "Z-line"⟩

theorem marker_bucket_grouping_witness :
    buildMarkers demoMapping (filterClassified
      [⟨some "img1", some "Z-line", "classified"⟩,
       ⟨some "img2", some "z line", "classified"⟩]) =
      [⟨"z_line", some zEntry, zEntry.display_name, some zEntry.group,
        [⟨some "img1", some "Z-line", "classified"⟩,
         ⟨some "img2", some "z line", "classified"⟩]⟩] :=
  (marker_bucket_grouping demoMapping zEntry
    ⟨some "img1", some "Z-line", "classified"⟩
    ⟨some "img2", some "z line", "classified"⟩ rfl rfl rfl rfl rfl).1

/-! ## WAV encoder (`utils/api-client.js`, `AudioConverter`)

`#encodeWav` fills an `ArrayBuffer(44 + dataSize)` through a
`DataView`.  The buffer is a `List Nat` of bytes (each write reduces
mod 256), multi-byte writes are little-endian as in the source
(`true` flag), and float samples are rationals.  `DataView.setInt16`
converts its argument by truncation toward zero and stores the value
as 16-bit two's complement. -/

structure AudioBuffer where
  sampleRate : Nat
  channels : List (List Rat)
deriving DecidableEq, Repr

/-- `#interleave(channels)`: a single channel passes through untouched
(the explicit fast path); otherwise channel-minor interleaving over the
first channel's length.  (`channels[c][i]` past the end reads as 0 once
stored: JS stores `NaN`, which `setInt16` converts to 0, and our model
reads a default 0 which `pcm16` maps to 0 as well.  For zero channels
the JS code throws; callers guarantee at least one channel.) -/
def interleave (channels : List (List Rat)) : List Rat :=
  match channels with
  | [ch] => ch
  | _ =>
    let len := (channels.headD []).length
    (List.range len).flatMap (fun i => channels.map (fun ch => ch.getD i 0))

/-- `view.setUint8(off, v)`: store one byte. -/
def setU8 (buf : List Nat) (off : Nat) (v : Nat) : List Nat :=
  buf.set off (v % 256)

/-- `view.setUint16(off, v, true)`: little-endian. -/
def setU16 (buf : List Nat) (off : Nat) (v : Nat) : List Nat :=
  setU8 (setU8 buf off v) (off + 1) (v / 256)

/-- `view.setUint32(off, v, true)`: little-endian. -/
def setU32 (buf : List Nat) (off : Nat) (v : Nat) : List Nat :=
  setU8 (setU8 (setU8 (setU8 buf off v) (off + 1) (v / 256))
    (off + 2) (v / 65536)) (off + 3) (v / 16777216)

/-- `view.setInt16(off, v, true)`: two's complement, little-endian. -/
def setI16 (buf : List Nat) (off : Nat) (v : Int) : List Nat :=
  setU16 buf off ((v % 65536).toNat)

/-- `#writeString(view, offset, string)`: one byte per character. -/
def writeChars (buf : List Nat) (off : Nat) : List Char → List Nat
  | [] => buf
  | c :: cs => writeChars (setU8 buf off c.toNat) (off + 1) cs

def writeString (buf : List Nat) (off : Nat) (s : String) : List Nat :=
  writeChars buf off s.data

/-- Truncation toward zero, as `ToIntegerOrInfinity` does in
`DataView.setInt16`. -/
def ratTrunc (q : Rat) : Int :=
  q.num.tdiv (q.den : Int)

/-- One sample of `#floatTo16BitPCM`: clamp to [-1,1], then scale a
negative sample by 0x8000 and a non-negative one by 0x7fff. -/
def pcm16 (s : Rat) : Int :=
  let c := max (-1 : Rat) (min 1 s)
  ratTrunc (if c < 0 then c * 32768 else c * 32767)

/-- `#floatTo16BitPCM(view, offset, input)`: sequential 16-bit writes,
offset advancing by 2. -/
def floatTo16BitPCM (buf : List Nat) (off : Nat) : List Rat → List Nat
  | [] => buf
  | s :: rest => floatTo16BitPCM (setI16 buf off (pcm16 s)) (off + 2) rest

/-- The thirteen header writes of `#encodeWav`, in source order. -/
def writeWavHeader (buf : List Nat) (numChannels sampleRate dataSize : Nat) :
    List Nat :=
  let blockAlign := numChannels * 2
  let byteRate := sampleRate * blockAlign
  let b := writeString buf 0 "RIFF"
  let b := setU32 b 4 (36 + dataSize)
  let b := writeString b 8 "WAVE"
  let b := writeString b 12 "fmt "
  let b := setU32 b 16 16
  let b := setU16 b 20 1
  let b := setU16 b 22 numChannels
  let b := setU32 b 24 sampleRate
  let b := setU32 b 28 byteRate
  let b := setU16 b 32 blockAlign
  let b := setU16 b 34 16
  let b := writeString b 36 "data"
  setU32 b 40 dataSize

/-- `#encodeWav(audioBuffer)`. -/
def encodeWav (ab : AudioBuffer) : List Nat :=
  let numChannels := ab.channels.length
  let interleaved := interleave ab.channels
  let bytesPerSample := 2
  let dataSize := interleaved.length * bytesPerSample
  let buf := List.replicate (44 + dataSize) 0
  floatTo16BitPCM (writeWavHeader buf numChannels ab.sampleRate dataSize) 44 interleaved

/-! ### C6: spec-side byte layout -/

def u16le (v : Nat) : List Nat := [v % 256, v / 256 % 256]

def u32le (v : Nat) : List Nat :=
  [v % 256, v / 256 % 256, v / 65536 % 256, v / 16777216 % 256]

def i16le (v : Int) : List Nat := u16le (v % 65536).toNat

/-- The claim's 44-byte canonical RIFF/WAVE header: `"RIFF"`, chunk
size `36 + dataSize`, `"WAVE"`, `"fmt "` chunk of size 16 with PCM
format tag 1, the channel count, the sample rate, byte rate =
sampleRate × blockAlign, block align = channels × 2, 16 bits per
sample, then `"data"` and the payload size. -/
def wavHeaderBytes (numChannels sampleRate dataSize : Nat) : List Nat :=
  [82, 73, 70, 70] ++ u32le (36 + dataSize) ++
  [87, 65, 86, 69] ++ [102, 109, 116, 32] ++
  u32le 16 ++ u16le 1 ++ u16le numChannels ++ u32le sampleRate ++
  u32le (sampleRate * (numChannels * 2)) ++ u16le (numChannels * 2) ++
  u16le 16 ++ [100, 97, 116, 97] ++ u32le dataSize

/-- The claim's payload: each interleaved sample clamped, scaled
asymmetrically and emitted as 16-bit little-endian two's complement. -/
def pcmBytes (samples : List Rat) : List Nat :=
  samples.flatMap (fun s => i16le (pcm16 s))
theorem writeWavHeader_split (nc sr ds : Nat) (T : List Nat) :
    writeWavHeader (List.replicate 44 0 ++ T) nc sr ds = wavHeaderBytes nc sr ds ++ T := by
  have h1 : writeString (List.replicate 44 (0 : Nat) ++ T) 0 "RIFF" =
      ([82,
      73,
      70,
      70,
      0,
      0,
      0,
      0,
      0,
      0,
      0,
      0,
      0,
      0,
      0,
      0,
      0,
      0,
      0,
      0,
      0,
      0,
      0,
      0,
      0,
      0,
      0,
      0,
      0,
      0,
      0,
      0,
      0,
      0,
      0,
      0,
      0,
      0,
      0,
      0,
      0,
      0,
      0,
      0] ++ T) := rfl
  have h2 : setU32 ([82,
      73,
      70,
      70,
      0,
      0,
      0,
      0,
      0,
      0,
      0,
      0,
      0,
      0,
      0,
      0,
      0,
      0,
      0,
      0,
      0,
      0,
      0,
      0,
      0,
      0,
      0,
      0,
      0,
      0,
      0,
      0,
      0,
      0,
      0,
      0,
      0,
      0,
      0,
      0,
      0,
      0,
      0,
      0] ++ T) 4 (36 + ds) =
      ([82,
      73,
      70,
      70,
      (36 + ds) % 256,
      (36 + ds) / 256 % 256,
      (36 + ds) / 65536 % 256,
      (36 + ds) / 16777216 % 256,
      0,
      0,
      0,
      0,
      0,
      0,
      0,
      0,
      0,
      0,
      0,
      0,
      0,
      0,
      0,
      0,
      0,
      0,
      0,
      0,
      0,
      0,
      0,
      0,
      0,
      0,
      0,
      0,
      0,
      0,
      0,
      0,
      0,
      0,
      0,
      0] ++ T) := rfl
  have h3 : writeString ([82,
      73,
      70,
      70,
      (36 + ds) % 256,
      (36 + ds) / 256 % 256,
      (36 + ds) / 65536 % 256,
      (36 + ds) / 16777216 % 256,
      0,
      0,
      0,
      0,
      0,
      0,
      0,
      0,
      0,
      0,
      0,
      0,
      0,
      0,
      0,
      0,
      0,
      0,
      0,
      0,
      0,
      0,
      0,
      0,
      0,
      0,
      0,
      0,
      0,
      0,
      0,
      0,
      0,
      0,
      0,
      0] ++ T) 8 "WAVE" =
      ([82,
      73,
      70,
      70,
      (36 + ds) % 256,
      (36 + ds) / 256 % 256,
      (36 + ds) / 65536 % 256,
      (36 + ds) / 16777216 % 256,
      87,
      65,
      86,
      69,
      0,
      0,
      0,
      0,
      0,
      0,
      0,
      0,
      0,
      0,
      0,
      0,
      0,
      0,
      0,
      0,
      0,
      0,
      0,
      0,
      0,
      0,
      0,
      0,
      0,
      0,
      0,
      0,
      0,
      0,
      0,
      0] ++ T) := rfl
  have h4 : writeString ([82,
      73,
      70,
      70,
      (36 + ds) % 256,
      (36 + ds) / 256 % 256,
      (36 + ds) / 65536 % 256,
      (36 + ds) / 16777216 % 256,
      87,
      65,
      86,
      69,
      0,
      0,
      0,
      0,
      0,
      0,
      0,
      0,
      0,
      0,
      0,
      0,
      0,
      0,
      0,
      0,
      0,
      0,
      0,
      0,
      0,
      0,
      0,
      0,
      0,
      0,
      0,
      0,
      0,
      0,
      0,
      0] ++ T) 12 "fmt " =
      ([82,
      73,
      70,
      70,
      (36 + ds) % 256,
      (36 + ds) / 256 % 256,
      (36 + ds) / 65536 % 256,
      (36 + ds) / 16777216 % 256,
      87,
      65,
      86,
      69,
      102,
      109,
      116,
      32,
      0,
      0,
      0,
      0,
      0,
      0,
      0,
      0,
      0,
      0,
      0,
      0,
      0,
      0,
      0,
      0,
      0,
      0,
      0,
      0,
      0,
      0,
      0,
      0,
      0,
      0,
      0,
      0] ++ T) := rfl
  have h5 : setU32 ([82,
      73,
      70,
      70,
      (36 + ds) % 256,
      (36 + ds) / 256 % 256,
      (36 + ds) / 65536 % 256,
      (36 + ds) / 16777216 % 256,
      87,
      65,
      86,
      69,
      102,
      109,
      116,
      32,
      0,
      0,
      0,
      0,
      0,
      0,
      0,
      0,
      0,
      0,
      0,
      0,
      0,
      0,
      0,
      0,
      0,
      0,
      0,
      0,
      0,
      0,
      0,
      0,
      0,
      0,
      0,
      0] ++ T) 16 16 =
      ([82,
      73,
      70,
      70,
      (36 + ds) % 256,
      (36 + ds) / 256 % 256,
      (36 + ds) / 65536 % 256,
      (36 + ds) / 16777216 % 256,
      87,
      65,
      86,
      69,
      102,
      109,
      116,
      32,
      16,
      0,
      0,
      0,
      0,
      0,
      0,
      0,
      0,
      0,
      0,
      0,
      0,
      0,
      0,
      0,
      0,
      0,
      0,
      0,
      0,
      0,
      0,
      0,
      0,
      0,
      0,
      0] ++ T) := rfl
  have h6 : setU16 ([82,
      73,
      70,
      70,
      (36 + ds) % 256,
      (36 + ds) / 256 % 256,
      (36 + ds) / 65536 % 256,
      (36 + ds) / 16777216 % 256,
      87,
      65,
      86,
      69,
      102,
      109,
      116,
      32,
      16,
      0,
      0,
      0,
      0,
      0,
      0,
      0,
      0,
      0,
      0,
      0,
      0,
      0,
      0,
      0,
      0,
      0,
      0,
      0,
      0,
      0,
      0,
      0,
      0,
      0,
      0,
      0] ++ T) 20 1 =
      ([82,
      73,
      70,
      70,
      (36 + ds) % 256,
      (36 + ds) / 256 % 256,
      (36 + ds) / 65536 % 256,
      (36 + ds) / 16777216 % 256,
      87,
      65,
      86,
      69,
      102,
      109,
      116,
      32,
      16,
      0,
      0,
      0,
      1,
      0,
      0,
      0,
      0,
      0,
      0,
      0,
      0,
      0,
      0,
      0,
      0,
      0,
      0,
      0,
      0,
      0,
      0,
      0,
      0,
      0,
      0,
      0] ++ T) := rfl
  have h7 : setU16 ([82,
      73,
      70,
      70,
      (36 + ds) % 256,
      (36 + ds) / 256 % 256,
      (36 + ds) / 65536 % 256,
      (36 + ds) / 16777216 % 256,
      87,
      65,
      86,
      69,
      102,
      109,
      116,
      32,
      16,
      0,
      0,
      0,
      1,
      0,
      0,
      0,
      0,
      0,
      0,
      0,
      0,
      0,
      0,
      0,
      0,
      0,
      0,
      0,
      0,
      0,
      0,
      0,
      0,
      0,
      0,
      0] ++ T) 22 nc =
      ([82,
      73,
      70,
      70,
      (36 + ds) % 256,
      (36 + ds) / 256 % 256,
      (36 + ds) / 65536 % 256,
      (36 + ds) / 16777216 % 256,
      87,
      65,
      86,
      69,
      102,
      109,
      116,
      32,
      16,
      0,
      0,
      0,
      1,
      0,
      nc % 256,
      nc / 256 % 256,
      0,
      0,
      0,
      0,
      0,
      0,
      0,
      0,
      0,
      0,
      0,
      0,
      0,
      0,
      0,
      0,
      0,
      0,
      0,
      0] ++ T) := rfl
  have h8 : setU32 ([82,
      73,
      70,
      70,
      (36 + ds) % 256,
      (36 + ds) / 256 % 256,
      (36 + ds) / 65536 % 256,
      (36 + ds) / 16777216 % 256,
      87,
      65,
      86,
      69,
      102,
      109,
      116,
      32,
      16,
      0,
      0,
      0,
      1,
      0,
      nc % 256,
      nc / 256 % 256,
      0,
      0,
      0,
      0,
      0,
      0,
      0,
      0,
      0,
      0,
      0,
      0,
      0,
      0,
      0,
      0,
      0,
      0,
      0,
      0] ++ T) 24 sr =
      ([82,
      73,
      70,
      70,
      (36 + ds) % 256,
      (36 + ds) / 256 % 256,
      (36 + ds) / 65536 % 256,
      (36 + ds) / 16777216 % 256,
      87,
      65,
      86,
      69,
      102,
      109,
      116,
      32,
      16,
      0,
      0,
      0,
      1,
      0,
      nc % 256,
      nc / 256 % 256,
      sr % 256,
      sr / 256 % 256,
      sr / 65536 % 256,
      sr / 16777216 % 256,
      0,
      0,
      0,
      0,
      0,
      0,
      0,
      0,
      0,
      0,
      0,
      0,
      0,
      0,
      0,
      0] ++ T) := rfl
  have h9 : setU32 ([82,
      73,
      70,
      70,
      (36 + ds) % 256,
      (36 + ds) / 256 % 256,
      (36 + ds) / 65536 % 256,
      (36 + ds) / 16777216 % 256,
      87,
      65,
      86,
      69,
      102,
      109,
      116,
      32,
      16,
      0,
      0,
      0,
      1,
      0,
      nc % 256,
      nc / 256 % 256,
      sr % 256,
      sr / 256 % 256,
      sr / 65536 % 256,
      sr / 16777216 % 256,
      0,
      0,
      0,
      0,
      0,
      0,
      0,
      0,
      0,
      0,
      0,
      0,
      0,
      0,
      0,
      0] ++ T) 28 (sr * (nc * 2)) =
      ([82,
      73,
      70,
      70,
      (36 + ds) % 256,
      (36 + ds) / 256 % 256,
      (36 + ds) / 65536 % 256,
      (36 + ds) / 16777216 % 256,
      87,
      65,
      86,
      69,
      102,
      109,
      116,
      32,
      16,
      0,
      0,
      0,
      1,
      0,
      nc % 256,
      nc / 256 % 256,
      sr % 256,
      sr / 256 % 256,
      sr / 65536 % 256,
      sr / 16777216 % 256,
      sr * (nc * 2) % 256,
      sr * (nc * 2) / 256 % 256,
      sr * (nc * 2) / 65536 % 256,
      sr * (nc * 2) / 16777216 % 256,
      0,
      0,
      0,
      0,
      0,
      0,
      0,
      0,
      0,
      0,
      0,
      0] ++ T) := rfl
  have h10 : setU16 ([82,
      73,
      70,
      70,
      (36 + ds) % 256,
      (36 + ds) / 256 % 256,
      (36 + ds) / 65536 % 256,
      (36 + ds) / 16777216 % 256,
      87,
      65,
      86,
      69,
      102,
      109,
      116,
      32,
      16,
      0,
      0,
      0,
      1,
      0,
      nc % 256,
      nc / 256 % 256,
      sr % 256,
      sr / 256 % 256,
      sr / 65536 % 256,
      sr / 16777216 % 256,
      sr * (nc * 2) % 256,
      sr * (nc * 2) / 256 % 256,
      sr * (nc * 2) / 65536 % 256,
      sr * (nc * 2) / 16777216 % 256,
      0,
      0,
      0,
      0,
      0,
      0,
      0,
      0,
      0,
      0,
      0,
      0] ++ T) 32 (nc * 2) =
      ([82,
      73,
      70,
      70,
      (36 + ds) % 256,
      (36 + ds) / 256 % 256,
      (36 + ds) / 65536 % 256,
      (36 + ds) / 16777216 % 256,
      87,
      65,
      86,
      69,
      102,
      109,
      116,
      32,
      16,
      0,
      0,
      0,
      1,
      0,
      nc % 256,
      nc / 256 % 256,
      sr % 256,
      sr / 256 % 256,
      sr / 65536 % 256,
      sr / 16777216 % 256,
      sr * (nc * 2) % 256,
      sr * (nc * 2) / 256 % 256,
      sr * (nc * 2) / 65536 % 256,
      sr * (nc * 2) / 16777216 % 256,
      nc * 2 % 256,
      nc * 2 / 256 % 256,
      0,
      0,
      0,
      0,
      0,
      0,
      0,
      0,
      0,
      0] ++ T) := rfl
  have h11 : setU16 ([82,
      73,
      70,
      70,
      (36 + ds) % 256,
      (36 + ds) / 256 % 256,
      (36 + ds) / 65536 % 256,
      (36 + ds) / 16777216 % 256,
      87,
      65,
      86,
      69,
      102,
      109,
      116,
      32,
      16,
      0,
      0,
      0,
      1,
      0,
      nc % 256,
      nc / 256 % 256,
      sr % 256,
      sr / 256 % 256,
      sr / 65536 % 256,
      sr / 16777216 % 256,
      sr * (nc * 2) % 256,
      sr * (nc * 2) / 256 % 256,
      sr * (nc * 2) / 65536 % 256,
      sr * (nc * 2) / 16777216 % 256,
      nc * 2 % 256,
      nc * 2 / 256 % 256,
      0,
      0,
      0,
      0,
      0,
      0,
      0,
      0,
      0,
      0] ++ T) 34 16 =
      ([82,
      73,
      70,
      70,
      (36 + ds) % 256,
      (36 + ds) / 256 % 256,
      (36 + ds) / 65536 % 256,
      (36 + ds) / 16777216 % 256,
      87,
      65,
      86,
      69,
      102,
      109,
      116,
      32,
      16,
      0,
      0,
      0,
      1,
      0,
      nc % 256,
      nc / 256 % 256,
      sr % 256,
      sr / 256 % 256,
      sr / 65536 % 256,
      sr / 16777216 % 256,
      sr * (nc * 2) % 256,
      sr * (nc * 2) / 256 % 256,
      sr * (nc * 2) / 65536 % 256,
      sr * (nc * 2) / 16777216 % 256,
      nc * 2 % 256,
      nc * 2 / 256 % 256,
      16,
      0,
      0,
      0,
      0,
      0,
      0,
      0,
      0,
      0] ++ T) := rfl
  have h12 : writeString ([82,
      73,
      70,
      70,
      (36 + ds) % 256,
      (36 + ds) / 256 % 256,
      (36 + ds) / 65536 % 256,
      (36 + ds) / 16777216 % 256,
      87,
      65,
      86,
      69,
      102,
      109,
      116,
      32,
      16,
      0,
      0,
      0,
      1,
      0,
      nc % 256,
      nc / 256 % 256,
      sr % 256,
      sr / 256 % 256,
      sr / 65536 % 256,
      sr / 16777216 % 256,
      sr * (nc * 2) % 256,
      sr * (nc * 2) / 256 % 256,
      sr * (nc * 2) / 65536 % 256,
      sr * (nc * 2) / 16777216 % 256,
      nc * 2 % 256,
      nc * 2 / 256 % 256,
      16,
      0,
      0,
      0,
      0,
      0,
      0,
      0,
      0,
      0] ++ T) 36 "data" =
      ([82,
      73,
      70,
      70,
      (36 + ds) % 256,
      (36 + ds) / 256 % 256,
      (36 + ds) / 65536 % 256,
      (36 + ds) / 16777216 % 256,
      87,
      65,
      86,
      69,
      102,
      109,
      116,
      32,
      16,
      0,
      0,
      0,
      1,
      0,
      nc % 256,
      nc / 256 % 256,
      sr % 256,
      sr / 256 % 256,
      sr / 65536 % 256,
      sr / 16777216 % 256,
      sr * (nc * 2) % 256,
      sr * (nc * 2) / 256 % 256,
      sr * (nc * 2) / 65536 % 256,
      sr * (nc * 2) / 16777216 % 256,
      nc * 2 % 256,
      nc * 2 / 256 % 256,
      16,
      0,
      100,
      97,
      116,
      97,
      0,
      0,
      0,
      0] ++ T) := rfl
  have h13 : setU32 ([82,
      73,
      70,
      70,
      (36 + ds) % 256,
      (36 + ds) / 256 % 256,
      (36 + ds) / 65536 % 256,
      (36 + ds) / 16777216 % 256,
      87,
      65,
      86,
      69,
      102,
      109,
      116,
      32,
      16,
      0,
      0,
      0,
      1,
      0,
      nc % 256,
      nc / 256 % 256,
      sr % 256,
      sr / 256 % 256,
      sr / 65536 % 256,
      sr / 16777216 % 256,
      sr * (nc * 2) % 256,
      sr * (nc * 2) / 256 % 256,
      sr * (nc * 2) / 65536 % 256,
      sr * (nc * 2) / 16777216 % 256,
      nc * 2 % 256,
      nc * 2 / 256 % 256,
      16,
      0,
      100,
      97,
      116,
      97,
      0,
      0,
      0,
      0] ++ T) 40 ds =
      ([82,
      73,
      70,
      70,
      (36 + ds) % 256,
      (36 + ds) / 256 % 256,
      (36 + ds) / 65536 % 256,
      (36 + ds) / 16777216 % 256,
      87,
      65,
      86,
      69,
      102,
      109,
      116,
      32,
      16,
      0,
      0,
      0,
      1,
      0,
      nc % 256,
      nc / 256 % 256,
      sr % 256,
      sr / 256 % 256,
      sr / 65536 % 256,
      sr / 16777216 % 256,
      sr * (nc * 2) % 256,
      sr * (nc * 2) / 256 % 256,
      sr * (nc * 2) / 65536 % 256,
      sr * (nc * 2) / 16777216 % 256,
      nc * 2 % 256,
      nc * 2 / 256 % 256,
      16,
      0,
      100,
      97,
      116,
      97,
      ds % 256,
      ds / 256 % 256,
      ds / 65536 % 256,
      ds / 16777216 % 256] ++ T) := rfl
  have hw : wavHeaderBytes nc sr ds ++ T =
      ([82,
      73,
      70,
      70,
      (36 + ds) % 256,
      (36 + ds) / 256 % 256,
      (36 + ds) / 65536 % 256,
      (36 + ds) / 16777216 % 256,
      87,
      65,
      86,
      69,
      102,
      109,
      116,
      32,
      16,
      0,
      0,
      0,
      1,
      0,
      nc % 256,
      nc / 256 % 256,
      sr % 256,
      sr / 256 % 256,
      sr / 65536 % 256,
      sr / 16777216 % 256,
      sr * (nc * 2) % 256,
      sr * (nc * 2) / 256 % 256,
      sr * (nc * 2) / 65536 % 256,
      sr * (nc * 2) / 16777216 % 256,
      nc * 2 % 256,
      nc * 2 / 256 % 256,
      16,
      0,
      100,
      97,
      116,
      97,
      ds % 256,
      ds / 256 % 256,
      ds / 65536 % 256,
      ds / 16777216 % 256] ++ T) := rfl
  simp only [writeWavHeader]
  rw [h1, h2, h3, h4, h5, h6, h7, h8, h9, h10, h11, h12, h13, hw]

theorem length_setU8 (b : List Nat) (o v : Nat) : (setU8 b o v).length = b.length := by
  simp [setU8]

theorem setU8_append {a b : List Nat} {k v : Nat} :
    setU8 (a ++ b) (a.length + k) v = a ++ setU8 b k v := by
  unfold setU8
  rw [List.set_append, if_neg (by omega)]
  congr 2
  omega

theorem setI16_append {a b : List Nat} {k : Nat} {v : Int} :
    setI16 (a ++ b) (a.length + k) v = a ++ setI16 b k v := by
  unfold setI16 setU16
  rw [setU8_append]
  have h : a.length + k + 1 = a.length + (k + 1) := by omega
  rw [h, setU8_append]

theorem floatTo16BitPCM_append {xs : List Rat} :
    ∀ {a b : List Nat} {k : Nat},
      floatTo16BitPCM (a ++ b) (a.length + k) xs = a ++ floatTo16BitPCM b k xs := by
  induction xs with
  | nil => intro a b k; rfl
  | cons s rest ih =>
    intro a b k
    show floatTo16BitPCM (setI16 (a ++ b) (a.length + k) (pcm16 s))
      (a.length + k + 2) rest = _
    rw [setI16_append]
    have h2 : a.length + k + 2 = a.length + (k + 2) := by omega
    rw [h2, ih]
    rfl

theorem floatTo16BitPCM_replicate (xs : List Rat) :
    floatTo16BitPCM (List.replicate (xs.length * 2) 0) 0 xs = pcmBytes xs := by
  induction xs with
  | nil => rfl
  | cons s rest ih =>
    have hlen : (s :: rest).length * 2 = rest.length * 2 + 2 := by
      simp [List.length_cons]
      ring
    rw [hlen]
    have hrep : List.replicate (rest.length * 2 + 2) (0 : Nat) =
        0 :: 0 :: List.replicate (rest.length * 2) 0 := rfl
    rw [hrep]
    show floatTo16BitPCM
      (setI16 (0 :: 0 :: List.replicate (rest.length * 2) 0) 0 (pcm16 s)) 2 rest = _
    have hset : setI16 (0 :: 0 :: List.replicate (rest.length * 2) (0 : Nat)) 0 (pcm16 s) =
        ((pcm16 s % 65536).toNat % 256) :: ((pcm16 s % 65536).toNat / 256 % 256) ::
          List.replicate (rest.length * 2) 0 := rfl
    rw [hset]
    refine (floatTo16BitPCM_append
      (a := [(pcm16 s % 65536).toNat % 256, (pcm16 s % 65536).toNat / 256 % 256])
      (b := List.replicate (rest.length * 2) 0) (k := 0)).trans ?_
    rw [ih]
    simp [pcmBytes, List.flatMap_cons, i16le, u16le]

theorem pcmBytes_length (xs : List Rat) : (pcmBytes xs).length = xs.length * 2 := by
  induction xs with
  | nil => rfl
  | cons s rest ih =>
    have hcons : pcmBytes (s :: rest) = i16le (pcm16 s) ++ pcmBytes rest := by
      simp [pcmBytes, List.flatMap_cons]
    rw [hcons, List.length_append, ih]
    have h1 : (i16le (pcm16 s)).length = 2 := rfl
    rw [h1, List.length_cons]
    ring

theorem wavHeaderBytes_length (nc sr ds : Nat) :
    (wavHeaderBytes nc sr ds).length = 44 := rfl

/-- C6: `#encodeWav` emits exactly the 44-byte canonical RIFF/WAVE
header (PCM tag 1, 16 bits per sample, block align = channels × 2,
byte rate = sampleRate × blockAlign, little-endian fields) followed by
the interleaved 16-bit little-endian PCM payload, each sample clamped
to [-1, 1] and scaled by 32768 when negative and 32767 otherwise; the
output length is `44 + 2·samples` (instantiated at a mono 1-second
48 kHz buffer by the witness: `44 + 48000*2` bytes with
NumChannels = 1, SampleRate = 48000, ByteRate = 96000,
BlockAlign = 2, BitsPerSample = 16). -/
theorem encodeWav_canonical (ab : AudioBuffer) (_hch : ab.channels ≠ []) :
    encodeWav ab =
      wavHeaderBytes ab.channels.length ab.sampleRate
          ((interleave ab.channels).length * 2) ++
        pcmBytes (interleave ab.channels) ∧
    (encodeWav ab).length = 44 + (interleave ab.channels).length * 2 ∧
    (wavHeaderBytes ab.channels.length ab.sampleRate
        ((interleave ab.channels).length * 2)).length = 44 := by
  have hmain : encodeWav ab =
      wavHeaderBytes ab.channels.length ab.sampleRate
          ((interleave ab.channels).length * 2) ++
        pcmBytes (interleave ab.channels) := by
    show floatTo16BitPCM
        (writeWavHeader (List.replicate (44 + (interleave ab.channels).length * 2) 0)
          ab.channels.length ab.sampleRate ((interleave ab.channels).length * 2))
        44 (interleave ab.channels) = _
    rw [List.replicate_add, writeWavHeader_split]
    have h44 : (44 : Nat) =
        (wavHeaderBytes ab.channels.length ab.sampleRate
          ((interleave ab.channels).length * 2)).length + 0 := by
      rw [wavHeaderBytes_length]
    rw [h44, floatTo16BitPCM_append, floatTo16BitPCM_replicate]
  refine ⟨hmain, ?_, wavHeaderBytes_length _ _ _⟩
  rw [hmain, List.length_append, wavHeaderBytes_length, pcmBytes_length]

def monoBuffer : AudioBuffer := ⟨48000, [List.replicate 48000 0]⟩

theorem encodeWav_canonical_witness :
    monoBuffer.channels ≠ [] ∧
    (encodeWav monoBuffer).length = 44 + 48000 * 2 ∧
    wavHeaderBytes monoBuffer.channels.length monoBuffer.sampleRate
        ((interleave monoBuffer.channels).length * 2) =
      wavHeaderBytes 1 48000 96000 := by
  have hne : monoBuffer.channels ≠ [] := by
    show [List.replicate 48000 (0 : Rat)] ≠ []
    exact List.cons_ne_nil _ _
  have h := encodeWav_canonical monoBuffer hne
  have hi : (interleave monoBuffer.channels).length = 48000 := by
    show (List.replicate 48000 (0 : Rat)).length = 48000
    exact List.length_replicate _ _
  refine ⟨hne, ?_, ?_⟩
  · rw [h.2.1, hi]
  · rw [hi]
    rfl

/-! ## Session controller (`public/main.js`, realtime variant)

`state.uploads` and the functions `classifyQueued`, `removeImage` and
`saveDictation`.  Per-item classification is driven by an outcome
oracle indexed by the item's position among the queued items: the
awaited `sendRealtimeRequest`/`fetchThumbnail` pair either succeeds
with a classify result and a thumbnail object URL, or fails with an
error message.  `URL.revokeObjectURL` calls are collected in a list. -/

structure Usage where
  input : Nat
  output : Nat
  latency : Rat
deriving DecidableEq, Repr

structure Dictation where
  url : String
  fileName : String
deriving DecidableEq, Repr

structure Upload where
  localId : String
  name : String
  status : String
  label : Option String := none
  reasoning : Option String := none
  imageDescription : Option String := none
  remoteId : Option String := none
  originalUrl : String := ""
  thumbnailUrl : Option String := none
  usage : Option Usage := none
  error : Option String := none
  dictation : Option Dictation := none
deriving DecidableEq, Repr

/-- A successful classify response (fields read by `classifyQueued`). -/
structure ClassifyResult where
  image_id : String
  label : Option String
  reasoning : Option String
  image_description : Option String
  input_tokens : Nat
  output_tokens : Nat
  latency : Rat
deriving DecidableEq, Repr

/-- The awaited effects for one item: either the classify request and
the thumbnail fetch both succeed, or one of them rejects and the
`catch` block runs with the error's message. -/
inductive ItemOutcome where
  | ok (r : ClassifyResult) (thumbUrl : String)
  | fail (msg : String)
deriving DecidableEq, Repr

/-- The mutations of the `try` block on success. -/
def applyClassifySuccess (u : Upload) (r : ClassifyResult) (thumbUrl : String) :
    Upload :=
  { u with remoteId := some r.image_id,
           label := r.label,
           reasoning := r.reasoning,
           imageDescription := r.image_description,
           status := "classified",
           usage := some ⟨r.input_tokens, r.output_tokens, r.latency⟩,
           thumbnailUrl := some thumbUrl }

/-- The mutations of the `catch` block on failure. -/
def applyClassifyFailure (u : Upload) (msg : String) : Upload :=
  { u with status := "error", error := some msg }

/-- Observable progression of the batch: the loop announces item `k`
(`"Classifying image k+1 of n"`), then completes it. -/
inductive BatchEvent where
  | start (idx : Nat) (name : String)
  | success (idx : Nat)
  | failure (idx : Nat) (msg : String)
deriving DecidableEq, Repr

/-- The `for` loop of `classifyQueued` over the `pending` snapshot
(`uploads.filter(status === "queued")`), mutating each item in place;
`k` counts queued items already processed. -/
def classifyLoop (outcomes : Nat → ItemOutcome) :
    List Upload → Nat → List Upload × List BatchEvent
  | [], _ => ([], [])
  | u :: rest, k =>
    if u.status == "queued" then
      match outcomes k with
      | .ok r thumb =>
        let step := classifyLoop outcomes rest (k + 1)
        (applyClassifySuccess u r thumb :: step.1,
          BatchEvent.start k u.name :: BatchEvent.success k :: step.2)
      | .fail msg =>
        let step := classifyLoop outcomes rest (k + 1)
        (applyClassifyFailure u msg :: step.1,
          BatchEvent.start k u.name :: BatchEvent.failure k msg :: step.2)
    else
      let step := classifyLoop outcomes rest k
      (u :: step.1, step.2)

/-- Module-level state read by `classifyQueued`. -/
structure AppState where
  sessionId : Option String
  sessionClosed : Bool
  classifyBusy : Bool
  uploads : List Upload
deriving DecidableEq, Repr

/-- `classifyQueued(autoTriggered)`: guards in source order (no
session, closed session, empty pending snapshot, busy flag), then the
sequential loop. -/
def classifyQueued (outcomes : Nat → ItemOutcome) (st : AppState) :
    AppState × List BatchEvent :=
  if st.sessionId = none then (st, [])
  else if st.sessionClosed then (st, [])
  else if (st.uploads.filter (fun u => u.status == "queued")).isEmpty then (st, [])
  else if st.classifyBusy then (st, [])
  else
    let run := classifyLoop outcomes st.uploads 0
    ({ st with uploads := run.1 }, run.2)

/-- The claim's strictly-sequential trace: the items of the pending
snapshot, in enqueue order, each started and then completed before the
next one starts. -/
def seqTrace (outcomes : Nat → ItemOutcome) : List Upload → Nat → List BatchEvent
  | [], _ => []
  | u :: rest, k =>
    BatchEvent.start k u.name ::
      (match outcomes k with
        | .ok _ _ => BatchEvent.success k
        | .fail msg => BatchEvent.failure k msg) ::
      seqTrace outcomes rest (k + 1)

/-- What happens to the item at a fixed position: queued items receive
exactly their own outcome (success fields or error message), others
are untouched. -/
def classifySpecItem (outcomes : Nat → ItemOutcome) (k : Nat) (u : Upload) : Upload :=
  match outcomes k with
  | .ok r thumb => applyClassifySuccess u r thumb
  | .fail msg => applyClassifyFailure u msg

def countQueued (l : List Upload) : Nat :=
  l.countP (fun u => u.status == "queued")

theorem classifyLoop_length (outcomes : Nat → ItemOutcome) :
    ∀ (l : List Upload) (k : Nat), (classifyLoop outcomes l k).1.length = l.length := by
  intro l
  induction l with
  | nil => intro k; rfl
  | cons u rest ih =>
    intro k
    unfold classifyLoop
    by_cases hq : u.status == "queued"
    · rw [if_pos hq]
      cases ho : outcomes k <;> simp [ih]
    · rw [if_neg hq]
      simp [ih]

theorem classifyLoop_getElem (outcomes : Nat → ItemOutcome) :
    ∀ (l : List Upload) (k j : Nat),
      (classifyLoop outcomes l k).1[j]? =
        (l[j]?).map (fun u =>
          if u.status == "queued" then
            classifySpecItem outcomes (k + countQueued (l.take j)) u
          else u) := by
  intro l
  induction l with
  | nil => intro k j; simp [classifyLoop]
  | cons u rest ih =>
    intro k j
    by_cases hq : u.status == "queued"
    · have hcons : (classifyLoop outcomes (u :: rest) k).1 =
          classifySpecItem outcomes k u :: (classifyLoop outcomes rest (k + 1)).1 := by
        rw [classifyLoop, if_pos hq]
        cases ho : outcomes k <;> simp [classifySpecItem, ho]
      rw [hcons]
      cases j with
      | zero =>
        simp only [List.getElem?_cons_zero, Option.map_some', List.take_zero]
        have h0 : countQueued ([] : List Upload) = 0 := rfl
        rw [h0, if_pos hq, Nat.add_zero]
      | succ n =>
        simp only [List.getElem?_cons_succ]
        rw [ih (k + 1) n]
        have hidx : k + countQueued ((u :: rest).take (n + 1)) =
            k + 1 + countQueued (rest.take n) := by
          simp [countQueued, List.take_succ_cons, List.countP_cons, hq]
          omega
        rw [hidx]
    · have hcons : (classifyLoop outcomes (u :: rest) k).1 =
          u :: (classifyLoop outcomes rest k).1 := by
        rw [classifyLoop, if_neg hq]
      rw [hcons]
      cases j with
      | zero =>
        simp only [List.getElem?_cons_zero, Option.map_some']
        rw [if_neg hq]
      | succ n =>
        simp only [List.getElem?_cons_succ]
        rw [ih k n]
        have hidx : k + countQueued ((u :: rest).take (n + 1)) =
            k + countQueued (rest.take n) := by
          simp [countQueued, List.take_succ_cons, List.countP_cons, hq]
        rw [hidx]

theorem classifyLoop_trace (outcomes : Nat → ItemOutcome) :
    ∀ (l : List Upload) (k : Nat),
      (classifyLoop outcomes l k).2 =
        seqTrace outcomes (l.filter (fun u => u.status == "queued")) k := by
  intro l
  induction l with
  | nil => intro k; rfl
  | cons u rest ih =>
    intro k
    unfold classifyLoop
    by_cases hq : u.status == "queued"
    · rw [if_pos hq]
      cases ho : outcomes k <;> simp [List.filter_cons, hq, seqTrace, ho, ih]
    · rw [if_neg hq]
      simp [List.filter_cons, hq, ih]

/-- C7: a batch runs strictly sequentially in enqueue order — the
event trace is each queued item started and completed before the next
starts, numbered by queue position — and every item's final state
depends only on its own outcome: the j-th upload, when queued, becomes
exactly its own outcome's success or error record, and is untouched
otherwise, so no item is skipped or processed twice and one item's
failure never aborts the batch. -/
theorem classify_batch_sequential (outcomes : Nat → ItemOutcome) (st : AppState)
    (sid : String)
    (hsid : st.sessionId = some sid)
    (hopen : st.sessionClosed = false)
    (hbusy : st.classifyBusy = false)
    (hpending : (st.uploads.filter (fun u => u.status == "queued")).isEmpty = false) :
    ((classifyQueued outcomes st).1.uploads.length = st.uploads.length) ∧
    (∀ j : Nat, (classifyQueued outcomes st).1.uploads[j]? =
        (st.uploads[j]?).map (fun u =>
          if u.status == "queued" then
            classifySpecItem outcomes (countQueued (st.uploads.take j)) u
          else u)) ∧
    ((classifyQueued outcomes st).2 =
      seqTrace outcomes (st.uploads.filter (fun u => u.status == "queued")) 0) := by
  have hrun : classifyQueued outcomes st =
      ({ st with uploads := (classifyLoop outcomes st.uploads 0).1 },
        (classifyLoop outcomes st.uploads 0).2) := by
    unfold classifyQueued
    rw [if_neg (by rw [hsid]; simp), if_neg (by rw [hopen]; simp),
      if_neg (by rw [hpending]; simp), if_neg (by rw [hbusy]; simp)]
  rw [hrun]
  refine ⟨classifyLoop_length outcomes st.uploads 0, ?_,
    classifyLoop_trace outcomes st.uploads 0⟩
  intro j
  have h := classifyLoop_getElem outcomes st.uploads 0 j
  simpa using h

def c7Result : ClassifyResult :=
  ⟨"img-7", some "antrum", some "clear view", some "mucosa", 10, 20, 3⟩

def c7Outcomes : Nat → ItemOutcome := fun k =>
  if k = 1 then .fail "boom" else .ok c7Result "blob:thumb"

def c7Uploads : List Upload :=
  [{ localId := "a", name := "one.png", status := "queued" },
   { localId := "b", name := "two.png", status := "queued" },
   { localId := "c", name := "three.png", status := "queued" }]

def c7State : AppState := ⟨some "sess", false, false, c7Uploads⟩

theorem classify_batch_sequential_witness :
    ((classifyQueued c7Outcomes c7State).1.uploads[1]? =
      (c7Uploads[1]?).map (fun u =>
        if u.status == "queued" then
          classifySpecItem c7Outcomes (countQueued (c7Uploads.take 1)) u
        else u)) ∧
    ((classifyQueued c7Outcomes c7State).1.uploads.map (fun u => u.status) =
      ["classified", "error", "classified"]) ∧
    ((classifyQueued c7Outcomes c7State).1.uploads[1]?.map (fun u => u.error) =
      some (some "boom")) := by
  refine ⟨(classify_batch_sequential c7Outcomes c7State "sess"
    rfl rfl rfl (by decide)).2.1 1, ?_, ?_⟩ <;> decide

/-- `removeImage(localId)`: find the first matching non-classified
item, revoke its dictation object URL if it has a truthy one, then
filter the collection, keeping every item whose `localId` differs or
whose status is `classified`.  Returns the new collection and the list
of revoked object URLs. -/
def removeImage (uploads : List Upload) (localId : String) :
    List Upload × List String :=
  let target := uploads.find? (fun u =>
    u.localId == localId && !(u.status == "classified"))
  let revoked :=
    match target with
    | some t =>
      match t.dictation with
      | some d => if d.url ≠ "" then [d.url] else []
      | none => []
    | none => []
  (uploads.filter (fun u => !(u.localId == localId) || u.status == "classified"),
    revoked)

/-- `upload.dictation = dictation` mutates the first item `find?`
returned. -/
def setDictationAt : List Upload → String → Option Dictation → List Upload
  | [], _, _ => []
  | u :: rest, localId, d =>
    if u.localId == localId then { u with dictation := d } :: rest
    else u :: setDictationAt rest localId d

/-- `saveDictation(localId, dictation)`: no-op when no item matches;
otherwise the previous dictation URL is revoked when truthy and
different from the new one (`url !== dictation?.url`, which is true
against `undefined` when the new dictation is absent), and the
dictation is replaced. -/
def saveDictation (uploads : List Upload) (localId : String)
    (dictation : Option Dictation) : List Upload × List String :=
  match uploads.find? (fun u => u.localId == localId) with
  | none => (uploads, [])
  | some u =>
    let revoked :=
      match u.dictation with
      | some d =>
        let differs : Bool :=
          match dictation with
          | some nd => d.url != nd.url
          | none => true
        if d.url ≠ "" ∧ differs then [d.url] else []
      | none => []
    (setDictationAt uploads localId dictation, revoked)

/-- C8: `removeImage` removes exactly the matching non-classified
items: the result is a sublist of the collection, and an item survives
iff it was present and either has a different `localId` or is
`classified` (so removal is a silent no-op for classified items and
leaves all other items unchanged). -/
theorem removeImage_filter_classified (uploads : List Upload) (localId : String) :
    ((removeImage uploads localId).1.Sublist uploads) ∧
    (∀ u : Upload, u ∈ (removeImage uploads localId).1 ↔
      (u ∈ uploads ∧ (u.localId ≠ localId ∨ u.status = "classified"))) := by
  constructor
  · exact List.filter_sublist _
  · intro u
    show u ∈ uploads.filter
        (fun u => !(u.localId == localId) || u.status == "classified") ↔ _
    rw [List.mem_filter]
    simp

/-- The object URLs the Session Controller has created for an upload
item, as the claim enumerates them: the image preview URL made at
enqueue time and the dictation audio URL when a dictation is attached
(stated from the claim's wording, to express the claim itself). -/
def itemObjectUrls (u : Upload) : List String :=
  u.originalUrl :: (match u.dictation with
    | some d => [d.url]
    | none => [])

def c9Upload : Upload :=
  { localId := "a", name := "img.png", status := "queued",
    originalUrl := "blob:orig-1", dictation := some ⟨"blob:dict-1", "note.wav"⟩ }

/-- C9 (counterexample): removing a non-classified item revokes only
its dictation URL.  The preview object URL `blob:orig-1` (created by
`enqueueImages` via `URL.createObjectURL`) is never revoked even
though the owning item leaves the collection, so "no object URL
created for the removed resource remains unrevoked" fails. -/
theorem removeImage_leaks_preview_cex :
    (removeImage [c9Upload] "a").1 = [] ∧
    (removeImage [c9Upload] "a").2 = ["blob:dict-1"] ∧
    ¬ (∀ url ∈ itemObjectUrls c9Upload, url ∈ (removeImage [c9Upload] "a").2) := by
  refine ⟨rfl, rfl, ?_⟩
  decide

theorem removeImage_revoked_eq (uploads : List Upload) (localId : String) :
    (removeImage uploads localId).2 =
      match uploads.find? (fun u => u.localId == localId && !(u.status == "classified")) with
      | some t =>
        match t.dictation with
        | some d => if d.url ≠ "" then [d.url] else []
        | none => []
      | none => [] := rfl

theorem saveDictation_revoked_eq (uploads : List Upload) (localId : String)
    (dictation : Option Dictation) :
    (saveDictation uploads localId dictation).2 =
      match uploads.find? (fun u => u.localId == localId) with
      | some u =>
        match u.dictation with
        | some d =>
          if d.url ≠ "" ∧ (match dictation with
              | some nd => d.url != nd.url
              | none => true : Bool) then [d.url] else []
        | none => []
      | none => [] := by
  unfold saveDictation
  cases uploads.find? (fun u => u.localId == localId) with
  | none => rfl
  | some u =>
    cases u.dictation with
    | none => rfl
    | some d => rfl

theorem removeImage_revoked_none {uploads : List Upload} {localId : String}
    (hf : uploads.find? (fun u => u.localId == localId && !(u.status == "classified")) = none) :
    (removeImage uploads localId).2 = [] := by
  rw [removeImage_revoked_eq, hf]

theorem removeImage_revoked_no_dictation {uploads : List Upload} {localId : String}
    {t : Upload}
    (hf : uploads.find? (fun u => u.localId == localId && !(u.status == "classified")) = some t)
    (hd : t.dictation = none) :
    (removeImage uploads localId).2 = [] := by
  rw [removeImage_revoked_eq, hf]
  show (match t.dictation with
    | some d => if d.url ≠ "" then [d.url] else []
    | none => ([] : List String)) = []
  rw [hd]

theorem removeImage_revoked_dictation {uploads : List Upload} {localId : String}
    {t : Upload} {d : Dictation}
    (hf : uploads.find? (fun u => u.localId == localId && !(u.status == "classified")) = some t)
    (hd : t.dictation = some d) :
    (removeImage uploads localId).2 = if d.url ≠ "" then [d.url] else [] := by
  rw [removeImage_revoked_eq, hf]
  show (match t.dictation with
    | some d => if d.url ≠ "" then [d.url] else []
    | none => ([] : List String)) = _
  rw [hd]

theorem saveDictation_revoked_none {uploads : List Upload} {localId : String}
    {dictation : Option Dictation}
    (hf : uploads.find? (fun u => u.localId == localId) = none) :
    (saveDictation uploads localId dictation).2 = [] := by
  rw [saveDictation_revoked_eq, hf]

theorem saveDictation_revoked_no_dictation {uploads : List Upload} {localId : String}
    {dictation : Option Dictation} {u : Upload}
    (hf : uploads.find? (fun x => x.localId == localId) = some u)
    (hd : u.dictation = none) :
    (saveDictation uploads localId dictation).2 = [] := by
  rw [saveDictation_revoked_eq, hf]
  show (match u.dictation with
    | some d =>
      if d.url ≠ "" ∧ (match dictation with
          | some nd => d.url != nd.url
          | none => true : Bool) then [d.url] else []
    | none => ([] : List String)) = []
  rw [hd]

theorem saveDictation_revoked_dictation {uploads : List Upload} {localId : String}
    {dictation : Option Dictation} {u : Upload} {d : Dictation}
    (hf : uploads.find? (fun x => x.localId == localId) = some u)
    (hd : u.dictation = some d) :
    (saveDictation uploads localId dictation).2 =
      if d.url ≠ "" ∧ (match dictation with
          | some nd => d.url != nd.url
          | none => true : Bool) then [d.url] else [] := by
  rw [saveDictation_revoked_eq, hf]
  show (match u.dictation with
    | some d =>
      if d.url ≠ "" ∧ (match dictation with
          | some nd => d.url != nd.url
          | none => true : Bool) then [d.url] else []
    | none => ([] : List String)) = _
  rw [hd]

/-- C9 (amended): the revocation discipline the code actually
implements: per removal or dictation replacement at most ONE object
URL is revoked; every revoked URL is the (truthy) dictation URL of a
matching item — never the image preview URL, which is not revoked at
all; the first matching non-classified item's truthy dictation URL IS
revoked on removal; replacing a dictation DOES revoke the previous
truthy URL whenever it differs from the new one (or the new dictation
is absent), and revokes nothing when the URL is unchanged, so no URL
is ever revoked twice. -/
theorem revocation_discipline (uploads : List Upload) (localId : String)
    (dictation : Option Dictation) :
    ((removeImage uploads localId).2.length ≤ 1) ∧
    (∀ url ∈ (removeImage uploads localId).2, url ≠ "" ∧
      ∃ u ∈ uploads, u.localId = localId ∧ u.status ≠ "classified" ∧
        ∃ d, u.dictation = some d ∧ d.url = url) ∧
    (∀ u d, uploads.find? (fun x => x.localId == localId && !(x.status == "classified")) = some u →
      u.dictation = some d → d.url ≠ "" →
      (removeImage uploads localId).2 = [d.url]) ∧
    ((saveDictation uploads localId dictation).2.length ≤ 1) ∧
    (∀ url ∈ (saveDictation uploads localId dictation).2, url ≠ "" ∧
      ∃ u ∈ uploads, u.localId = localId ∧
        ∃ d, u.dictation = some d ∧ d.url = url ∧
          ∀ nd, dictation = some nd → nd.url ≠ url) ∧
    (∀ u d, uploads.find? (fun x => x.localId == localId) = some u →
      u.dictation = some d → d.url ≠ "" →
      (∀ nd, dictation = some nd → nd.url ≠ d.url) →
      (saveDictation uploads localId dictation).2 = [d.url]) ∧
    (∀ u d nd, uploads.find? (fun x => x.localId == localId) = some u →
      u.dictation = some d → dictation = some nd → nd.url = d.url →
      (saveDictation uploads localId dictation).2 = []) := by
  refine ⟨?_, ?_, ?_, ?_, ?_, ?_, ?_⟩
  · cases hf : uploads.find?
        (fun u => u.localId == localId && !(u.status == "classified")) with
    | none => rw [removeImage_revoked_none hf]; simp
    | some t =>
      cases hd : t.dictation with
      | none => rw [removeImage_revoked_no_dictation hf hd]; simp
      | some d => rw [removeImage_revoked_dictation hf hd]; split <;> simp
  · intro url hurl
    cases hf : uploads.find?
        (fun u => u.localId == localId && !(u.status == "classified")) with
    | none => rw [removeImage_revoked_none hf] at hurl; simp at hurl
    | some t =>
      cases hd : t.dictation with
      | none => rw [removeImage_revoked_no_dictation hf hd] at hurl; simp at hurl
      | some d =>
        rw [removeImage_revoked_dictation hf hd] at hurl
        split at hurl
        · next hne =>
          simp only [List.mem_singleton] at hurl
          subst hurl
          have hmem := List.mem_of_find?_eq_some hf
          have hpred := List.find?_some hf
          simp only [Bool.and_eq_true, beq_iff_eq, Bool.not_eq_true',
            beq_eq_false_iff_ne] at hpred
          exact ⟨hne, t, hmem, hpred.1, hpred.2, d, hd, rfl⟩
        · simp at hurl
  · intro u d hf hd hne
    rw [removeImage_revoked_dictation hf hd, if_pos hne]
  · cases hf : uploads.find? (fun x => x.localId == localId) with
    | none => rw [saveDictation_revoked_none hf]; simp
    | some u =>
      cases hd : u.dictation with
      | none => rw [saveDictation_revoked_no_dictation hf hd]; simp
      | some d => rw [saveDictation_revoked_dictation hf hd]; split <;> simp
  · intro url hurl
    cases hf : uploads.find? (fun x => x.localId == localId) with
    | none => rw [saveDictation_revoked_none hf] at hurl; simp at hurl
    | some u =>
      cases hd : u.dictation with
      | none => rw [saveDictation_revoked_no_dictation hf hd] at hurl; simp at hurl
      | some d =>
        rw [saveDictation_revoked_dictation hf hd] at hurl
        split at hurl
        · next hcond =>
          simp only [List.mem_singleton] at hurl
          subst hurl
          have hmem := List.mem_of_find?_eq_some hf
          have hpred := List.find?_some hf
          simp only [beq_iff_eq] at hpred
          refine ⟨hcond.1, u, hmem, hpred, d, hd, rfl, ?_⟩
          intro nd hnd
          have hdif := hcond.2
          rw [hnd] at hdif
          simp only [bne_iff_ne] at hdif
          exact fun hh => hdif (by rw [hh])
        · simp at hurl
  · intro u d hf hd hne hdiff
    rw [saveDictation_revoked_dictation hf hd]
    cases dictation with
    | none => rw [if_pos ⟨hne, rfl⟩]
    | some nd =>
      have hbne : (d.url != nd.url) = true := by
        simp only [bne_iff_ne]
        intro hh
        exact hdiff nd rfl (by rw [hh])
      rw [if_pos ⟨hne, hbne⟩]
  · intro u d nd hf hd hnd hurl
    rw [saveDictation_revoked_dictation hf hd, hnd]
    rw [if_neg]
    intro hcond
    have hdif := hcond.2
    simp only [bne_iff_ne] at hdif
    exact hdif (by rw [hurl])

def c9Uploads : List Upload :=
  [c9Upload,
   { localId := "b", name := "done.png", status := "classified",
     originalUrl := "blob:orig-2", dictation := none }]

theorem revocation_discipline_witness :
    (removeImage c9Uploads "a").2 = ["blob:dict-1"] ∧
    ("blob:dict-1" ≠ "" ∧
      ∃ u ∈ c9Uploads, u.localId = "a" ∧ u.status ≠ "classified" ∧
        ∃ d, u.dictation = some d ∧ d.url = "blob:dict-1") ∧
    (saveDictation c9Uploads "a" (some ⟨"blob:dict-2", "note2.wav"⟩)).2 =
      ["blob:dict-1"] ∧
    (saveDictation c9Uploads "a" (some ⟨"blob:dict-1", "note.wav"⟩)).2 = [] := by
  have h := revocation_discipline c9Uploads "a" (some ⟨"blob:dict-1", "note.wav"⟩)
  have h2 := revocation_discipline c9Uploads "a" (some ⟨"blob:dict-2", "note2.wav"⟩)
  refine ⟨?_, ?_, ?_, ?_⟩
  · exact h.2.2.1 c9Upload ⟨"blob:dict-1", "note.wav"⟩ (by decide) rfl (by decide)
  · exact h.2.1 "blob:dict-1" (by decide)
  · refine h2.2.2.2.2.2.1 c9Upload ⟨"blob:dict-1", "note.wav"⟩ (by decide) rfl
      (by decide) ?_
    intro nd hnd
    injection hnd with h1
    rw [← h1]
    decide
  · exact h.2.2.2.2.2.2 c9Upload ⟨"blob:dict-1", "note.wav"⟩ ⟨"blob:dict-1", "note.wav"⟩
      (by decide) rfl rfl rfl
